import Mathlib

/-!
Verification of the core game logic of the "commit streak" endless-runner
(src/game.js, with the near-duplicate engine copy in src/unnamed/part_000).

Modelling conventions:
* JS numbers are modelled as `ℚ` (all arithmetic in the claims is exact);
  counters and scores that only ever hold integers are `ℤ` or `ℕ`.
* `Math.random()` draws, `Math.sin`, `Math.cos` and `Math.PI` are abstracted
  into `Oracle`/`JsMath` records of arbitrary rational-valued functions; the
  game logic never branches on their exact values in ways the claims depend
  on, and all theorems quantify over the oracle.
* DOM, canvas, audio, `localStorage` and the render-only subsystems
  (`Background`, `Camera`, the draw methods) have no effect on the game
  state transitions and are not modelled.
* The wall-clock `setTimeout` callbacks (damage invincibility expiry at
  1500 ms, power-up expiry at `duration` = 5000 ms) are modelled in a timed
  event layer (`TState`, `stepEvent`, `traceValid`) on top of the per-frame
  `GameEngine.update` function; a tick records via `TickEvents` which
  timeouts it scheduled.
* Where the two engine copies differ (part_000 adds trail particles and a
  richer `ParticleSystem`), the `ParticleSystem` follows
  src/unnamed/part_000 (the copy the particle claims cite); `GameEngine`
  follows src/game.js.  All claimed behaviour is identical in both copies.
-/

/-- Abstract interpretations of the transcendental JS math functions used
only in visual offsets and particle velocities (`Math.sin`, `Math.cos`,
`Math.PI`). -/
structure JsMath where
  sin : ℚ → ℚ
  cos : ℚ → ℚ
  pi : ℚ

/-- An axis-aligned rectangle, as produced by `Player.getBounds()` and
carried by every spawned entity (fields `x`, `y`, `width`, `height`). -/
structure Rect where
  x : ℚ
  y : ℚ
  width : ℚ
  height : ℚ
deriving DecidableEq

/-- `ObstacleManager.isColliding(rect1, rect2)` from src/game.js lines
678-683: strict axis-aligned bounding-box overlap. -/
def ObstacleManager.isColliding (rect1 rect2 : Rect) : Bool :=
  decide (rect1.x < rect2.x + rect2.width) &&
  decide (rect1.x + rect1.width > rect2.x) &&
  decide (rect1.y < rect2.y + rect2.height) &&
  decide (rect1.y + rect1.height > rect2.y)

-- ==================== PLAYER ====================

/-- The `Player` entity.  Constants from the source: `gravity = 0.6`,
`jumpForce = -13`, `groundY = 380`, initial size 32×32.  The
`initialX`/`initialY` fields are only read by `reset()` and are omitted;
`invincible` is toggled by the damage handler, the power-up effects and the
wall-clock timeout (timed layer). -/
structure Player where
  x : ℚ
  y : ℚ
  width : ℚ
  height : ℚ
  velocityY : ℚ
  jumping : Bool
  sliding : Bool
  slideTimer : ℤ
  invincible : Bool
deriving DecidableEq

/-- `Player.jump()`: unconditionally sets `velocityY = jumpForce = -13` and
marks `jumping` (the state guard lives in the input handler). -/
def Player.jump (p : Player) : Player :=
  { p with velocityY := -13, jumping := true }

/-- `Player.slide()`: marks `sliding`, shrinks the hitbox height to 16 and
starts the 20-tick slide timer. -/
def Player.slide (p : Player) : Player :=
  { p with sliding := true, height := 16, slideTimer := 20 }

/-- `Player.update()`: slide-timer countdown, gravity integration and
ground clamping, exactly as in the source. -/
def Player.update (p : Player) : Player :=
  let p :=
    if p.sliding then
      let p := { p with slideTimer := p.slideTimer - 1 }
      if p.slideTimer ≤ 0 then { p with sliding := false, height := 32 } else p
    else p
  let p := { p with velocityY := p.velocityY + 3/5 }
  let p := { p with y := p.y + p.velocityY }
  if p.y ≥ 380 then { p with y := 380, velocityY := 0, jumping := false } else p

/-- `Player.getBounds()`. -/
def Player.getBounds (p : Player) : Rect :=
  { x := p.x, y := p.y, width := p.width, height := p.height }

-- ==================== PARTICLE SYSTEM ====================

/-- A particle, with the field set of src/unnamed/part_000.  Particles made
by the src/game.js copy simply leave `gravity = 0` (so the `|| 0.2` default
applies), `shrink = false`, `shape = "square"`, `type = none`, and behave
identically under `update`. -/
structure Particle where
  x : ℚ
  y : ℚ
  vx : ℚ
  vy : ℚ
  size : ℚ
  color : String
  life : ℤ
  maxLife : ℤ
  alpha : ℚ
  gravity : ℚ
  glow : Bool
  shape : String
  shrink : Bool
  type : Option String
deriving DecidableEq

/-- The per-particle mutation inside `ParticleSystem.update`'s filter
callback: move, apply gravity (`p.gravity || 0.2`, skipped for trail
particles), decrement life, recompute alpha, shrink. -/
def ParticleSystem.updateParticle (p : Particle) : Particle :=
  let p := { p with x := p.x + p.vx, y := p.y + p.vy }
  let p :=
    if p.type = some "trail" then p
    else { p with vy := p.vy + (if p.gravity = 0 then 1/5 else p.gravity) }
  let p := { p with life := p.life - 1 }
  let p := { p with alpha := (p.life : ℚ) / (p.maxLife : ℚ) }
  if p.shrink then { p with size := p.size * (24/25) } else p

/-- `ParticleSystem.update()`: mutate every particle, keep those with
`life > 0 && size > 0.5`. -/
def ParticleSystem.update (ps : List Particle) : List Particle :=
  (ps.map ParticleSystem.updateParticle).filter
    (fun p => decide (p.life > 0) && decide (p.size > 1/2))

/-- `ParticleSystem.createBurst(x, y, color, count)`: appends `count`
particles radiating at equal angular spacing with randomized speed
(`2 + random()*3`) and size (`3 + random()*2`), `life = maxLife = 30`,
gravity 0.15, circular, glowing, shrinking.  `rand i` is the value of the
i-th `Math.random()` call. -/
def ParticleSystem.createBurst (rand : ℕ → ℚ) (jm : JsMath) (x y : ℚ)
    (color : String) (count : ℕ) (ps : List Particle) : List Particle :=
  ps ++ (List.range count).map (fun (i : ℕ) =>
    let angle := jm.pi * 2 * (i : ℚ) / (count : ℚ)
    let speed := 2 + rand (2 * i) * 3
    { x := x, y := y, vx := jm.cos angle * speed, vy := jm.sin angle * speed,
      size := 3 + rand (2 * i + 1) * 2, color := color, life := 30,
      maxLife := 30, alpha := 1, gravity := 3/20, glow := true,
      shape := "circle", shrink := true, type := none })

/-- `ParticleSystem.createExplosion(x, y, color, count)`: `count` particles
with random velocities plus a 12-particle zero-gravity shockwave ring. -/
def ParticleSystem.createExplosion (rand : ℕ → ℚ) (jm : JsMath) (x y : ℚ)
    (color : String) (count : ℕ) (ps : List Particle) : List Particle :=
  let main := (List.range count).map (fun (i : ℕ) =>
    { x := x, y := y, vx := (rand (4 * i) - 1/2) * 8,
      vy := (rand (4 * i + 1) - 1/2) * 8, size := 4 + rand (4 * i + 2) * 4,
      color := color, life := 40, maxLife := 40, alpha := 1, gravity := 1/4,
      glow := true,
      shape := if rand (4 * i + 3) > 1/2 then "circle" else "square",
      shrink := true, type := none })
  let ring := (List.range 12).map (fun (i : ℕ) =>
    let angle := jm.pi * 2 * (i : ℚ) / 12
    let speed := 5 + rand (100 + i) * 2
    { x := x, y := y, vx := jm.cos angle * speed, vy := jm.sin angle * speed,
      size := 2, color := color, life := 20, maxLife := 20, alpha := 1,
      gravity := 0, glow := true, shape := "circle", shrink := true,
      type := none })
  ps ++ main ++ ring

-- ==================== OBSTACLE MANAGER ====================

/-- An entry of `ObstacleManager.types`. -/
structure ObstacleKind where
  type : String
  width : ℚ
  height : ℚ
  y : ℚ
  color : String
deriving DecidableEq

/-- The obstacle type table. -/
def ObstacleManager.types : List ObstacleKind :=
  [{ type := "bug", width := 32, height := 32, y := 380, color := "#f85149" },
   { type := "conflict", width := 32, height := 36, y := 344, color := "#f85149" },
   { type := "spike", width := 24, height := 48, y := 364, color := "#ff6b6b" }]

/-- A spawned obstacle. -/
structure Obstacle where
  x : ℚ
  y : ℚ
  width : ℚ
  height : ℚ
  type : String
  color : String
deriving DecidableEq

/-- `ObstacleManager.spawn()`: push a new obstacle at `x = 900` whose
size/position come from the type table; `choice` is the uniformly random
index `Math.floor(Math.random() * types.length)`. -/
def ObstacleManager.spawn (choice : Fin 3) : Obstacle :=
  let t := ObstacleManager.types.get ⟨choice.val, choice.isLt⟩
  { x := 900, y := t.y, width := t.width, height := t.height,
    type := t.type, color := t.color }

/-- The move-and-cull pass at the top of `ObstacleManager.update`: shift
every obstacle left by `speed` and keep those with `x + width > 0`. -/
def ObstacleManager.moveAndCull (speed : ℚ) (obstacles : List Obstacle) :
    List Obstacle :=
  (obstacles.map (fun ob => { ob with x := ob.x - speed })).filter
    (fun ob => decide (ob.x + ob.width > 0))

/-- `ObstacleManager.update(speed, frameCount)`: move/cull, then spawn one
obstacle exactly when `frameCount % 120 === 0`. -/
def ObstacleManager.update (speed : ℚ) (frameCount : ℕ) (choice : Fin 3)
    (obstacles : List Obstacle) : List Obstacle :=
  let moved := ObstacleManager.moveAndCull speed obstacles
  if frameCount % 120 = 0 then moved ++ [ObstacleManager.spawn choice]
  else moved

/-- The rectangle of an obstacle (its `x`/`y`/`width`/`height` fields as
read by `isColliding`). -/
def Obstacle.rect (ob : Obstacle) : Rect :=
  { x := ob.x, y := ob.y, width := ob.width, height := ob.height }

/-- `ObstacleManager.checkCollision(player)`: first obstacle in list order
whose box strictly overlaps the player's bounds. -/
def ObstacleManager.checkCollision (player : Player)
    (obstacles : List Obstacle) : Option Obstacle :=
  obstacles.find? (fun ob =>
    ObstacleManager.isColliding (Player.getBounds player) ob.rect)

-- ==================== COLLECTIBLE MANAGER ====================

/-- A spawned collectible. -/
structure Collectible where
  x : ℚ
  y : ℚ
  width : ℚ
  height : ℚ
  floatOffset : ℚ
  floatPhase : ℚ
deriving DecidableEq

/-- `CollectibleManager.spawn()`: a 24×24 collectible at `x = 900` and one
of the three y positions 300/340/380; `phase` models the random float
phase `Math.random() * 2π`. -/
def CollectibleManager.spawn (choice : Fin 3) (phase : ℚ) : Collectible :=
  let yPositions : List ℚ := [300, 340, 380]
  { x := 900, y := yPositions.get ⟨choice.val, choice.isLt⟩, width := 24,
    height := 24, floatOffset := 0, floatPhase := phase }

/-- `CollectibleManager.update(speed, frameCount)`: move/float/cull, then
spawn when `frameCount % 80 === 0`. -/
def CollectibleManager.update (jm : JsMath) (speed : ℚ) (frameCount : ℕ)
    (choice : Fin 3) (phase : ℚ) (cols : List Collectible) :
    List Collectible :=
  let moved := (cols.map (fun c =>
    { c with x := c.x - speed,
             floatOffset := jm.sin ((frameCount : ℚ) * (1/10) + c.floatPhase) * 3 })).filter
    (fun c => decide (c.x + c.width > 0))
  if frameCount % 80 = 0 then moved ++ [CollectibleManager.spawn choice phase]
  else moved

/-- `CollectibleManager.checkCollision(player)`: the AABB test is written
inline in the source with the same four strict inequalities. -/
def CollectibleManager.checkCollision (player : Player)
    (cols : List Collectible) : Option Collectible :=
  let pb := Player.getBounds player
  cols.find? (fun c =>
    decide (pb.x < c.x + c.width) && decide (pb.x + pb.width > c.x) &&
    decide (pb.y < c.y + c.height) && decide (pb.y + pb.height > c.y))

-- ==================== POWERUP MANAGER ====================

/-- An entry of `PowerupManager.types`. -/
structure PowerupKind where
  type : String
  color : String
  duration : ℕ
deriving DecidableEq

/-- The power-up type table (all durations 5000 ms). -/
def PowerupManager.types : List PowerupKind :=
  [{ type := "invincibility", color := "#bc8cff", duration := 5000 },
   { type := "slowmo", color := "#58a6ff", duration := 5000 },
   { type := "magnet", color := "#f9826c", duration := 5000 }]

/-- A spawned power-up. -/
structure Powerup where
  x : ℚ
  y : ℚ
  width : ℚ
  height : ℚ
  type : String
  color : String
  duration : ℕ
  floatOffset : ℚ
  floatPhase : ℚ
deriving DecidableEq

/-- `PowerupManager.spawn()`. -/
def PowerupManager.spawn (choice : Fin 3) (phase : ℚ) : Powerup :=
  let t := PowerupManager.types.get ⟨choice.val, choice.isLt⟩
  { x := 900, y := 320, width := 32, height := 32, type := t.type,
    color := t.color, duration := t.duration, floatOffset := 0,
    floatPhase := phase }

/-- `PowerupManager.update(speed, frameCount)`: move/float/cull, then spawn
when `frameCount % 400 === 0 && Math.random() < 0.5`; `gate` models the
random 50% check. -/
def PowerupManager.update (jm : JsMath) (speed : ℚ) (frameCount : ℕ)
    (gate : Bool) (choice : Fin 3) (phase : ℚ) (pus : List Powerup) :
    List Powerup :=
  let moved := (pus.map (fun pu =>
    { pu with x := pu.x - speed,
              floatOffset := jm.sin ((frameCount : ℚ) * (2/25) + pu.floatPhase) * 5 })).filter
    (fun pu => decide (pu.x + pu.width > 0))
  if frameCount % 400 = 0 ∧ gate = true then
    moved ++ [PowerupManager.spawn choice phase]
  else moved

/-- `PowerupManager.checkCollision(player)` (inline AABB test). -/
def PowerupManager.checkCollision (player : Player) (pus : List Powerup) :
    Option Powerup :=
  let pb := Player.getBounds player
  pus.find? (fun pu =>
    decide (pb.x < pu.x + pu.width) && decide (pb.x + pb.width > pu.x) &&
    decide (pb.y < pu.y + pu.height) && decide (pb.y + pb.height > pu.y))

/-- The duration looked up by `activatePowerup` for the expiry timeout. -/
def PowerupManager.durationOf (ty : String) : ℕ :=
  ((PowerupManager.types.find? (fun t => t.type = ty)).map
    (fun t => t.duration)).getD 0

-- ==================== GAME STATE ====================

/-- The session state machine (`this.state`). -/
inductive GState where
  | start
  | playing
  | gameOver
deriving DecidableEq

/-- The `stats` record. -/
structure Stats where
  score : ℤ
  streak : ℤ
  highScore : ℤ
  lives : ℤ
  combo : ℤ
  maxCombo : ℤ
  commits : ℤ
  gameSpeed : ℚ
  speedMultiplier : ℚ
deriving DecidableEq

/-- `PowerupManager.updateEffects(player, stats)` (src/game.js lines
864-874): while the invincibility power-up is active the player is made
invincible (never the reverse); the speed multiplier is 0.5 while slow-mo
is active and 1 otherwise. -/
def PowerupManager.updateEffects (activePowerup : Option String)
    (player : Player) (stats : Stats) : Player × Stats :=
  let player :=
    if activePowerup = some "invincibility" then
      { player with invincible := true }
    else player
  let stats :=
    if activePowerup = some "slowmo" then { stats with speedMultiplier := 1/2 }
    else { stats with speedMultiplier := 1 }
  (player, stats)

/-- The persisted `settings` flags (only `particles` and `screenShake`
influence the modelled state transitions). -/
structure Settings where
  sound : Bool
  music : Bool
  particles : Bool
  screenShake : Bool
deriving DecidableEq

/-- The mutable state of the `GameEngine` and its owned subsystems.
`activePowerup` is the `PowerupManager.activePowerup` field; `unlocked` is
the `AchievementManager.unlocked` id list. -/
structure EngineState where
  state : GState
  frameCount : ℕ
  isPaused : Bool
  settings : Settings
  stats : Stats
  player : Player
  obstacles : List Obstacle
  collectibles : List Collectible
  powerups : List Powerup
  activePowerup : Option String
  particles : List Particle
  unlocked : List String
deriving DecidableEq

/-- What one call of `GameEngine.update` did, recorded for the timed
`setTimeout` layer and the no-collision hypotheses: whether each of the
three collision queries found a match, whether `handleDamage` ran, whether
it scheduled the 1500 ms invincibility-clearing timeout (it does exactly
when the decremented life count is still positive), and which power-up
type `activatePowerup` was called with. -/
structure TickEvents where
  obsHit : Bool
  colHit : Bool
  puHit : Bool
  damaged : Bool
  dmgTimeoutScheduled : Bool
  activated : Option String
deriving DecidableEq

/-- The empty event record (a tick that hit nothing, or a no-op tick). -/
def noTickEvents : TickEvents :=
  { obsHit := false, colHit := false, puHit := false, damaged := false,
    dmgTimeoutScheduled := false, activated := none }

/-- One value per `Math.random()`-derived choice, indexed by the frame
count at which the tick consuming it runs.  All theorems hold for every
oracle. -/
structure Oracle where
  jm : JsMath
  obsType : ℕ → Fin 3
  colY : ℕ → Fin 3
  colPhase : ℕ → ℚ
  puGate : ℕ → Bool
  puType : ℕ → Fin 3
  puPhase : ℕ → ℚ
  burstRand : ℕ → ℕ → ℚ
  puBurstRand : ℕ → ℕ → ℚ
  explosionRand : ℕ → ℕ → ℚ

-- ==================== ACHIEVEMENTS ====================

/-- An entry of the `AchievementManager.achievements` catalog. -/
structure Achievement where
  id : String
  name : String
  desc : String
  icon : String
  req : Stats → Bool

/-- The achievement catalog of src/game.js lines 1031-1040. -/
def AchievementManager.achievements : List Achievement :=
  [{ id := "first_commit", name := "FIRST COMMIT",
     desc := "Collect your first commit", icon := "✓",
     req := fun stats => decide (stats.commits ≥ 1) },
   { id := "streak_10", name := "GETTING STARTED",
     desc := "Reach a streak of 10", icon := "🔥",
     req := fun stats => decide (stats.streak ≥ 10) },
   { id := "streak_50", name := "ON FIRE", desc := "Reach a streak of 50",
     icon := "🔥", req := fun stats => decide (stats.streak ≥ 50) },
   { id := "score_1000", name := "MILESTONE", desc := "Score 1000 points",
     icon := "🎯", req := fun stats => decide (stats.score ≥ 1000) },
   { id := "score_5000", name := "HIGH ACHIEVER",
     desc := "Score 5000 points", icon := "🏆",
     req := fun stats => decide (stats.score ≥ 5000) },
   { id := "combo_5", name := "COMBO MASTER", desc := "Get a 5x combo",
     icon := "⚡", req := fun stats => decide (stats.maxCombo ≥ 5) },
   { id := "combo_10", name := "UNSTOPPABLE", desc := "Get a 10x combo",
     icon := "💫", req := fun stats => decide (stats.maxCombo ≥ 10) },
   { id := "commits_100", name := "CONTRIBUTOR",
     desc := "Collect 100 commits", icon := "📝",
     req := fun stats => decide (stats.commits ≥ 100) }]

/-- The `forEach` loop body of `checkAchievements`: walk the catalog; for
each entry not yet unlocked whose requirement holds, append its id to the
unlocked list and collect it.  Returns (newly unlocked, final unlocked
list). -/
def AchievementManager.checkLoop :
    List Achievement → List String → Stats → List Achievement × List String
  | [], unlocked, _ => ([], unlocked)
  | a :: rest, unlocked, stats =>
    if unlocked.contains a.id = false ∧ a.req stats = true then
      let r := AchievementManager.checkLoop rest (unlocked ++ [a.id]) stats
      (a :: r.1, r.2)
    else AchievementManager.checkLoop rest unlocked stats

/-- `AchievementManager.checkAchievements(stats)` (src/game.js lines
1054-1069), as a function of the current unlocked-id list. -/
def AchievementManager.checkAchievements (unlocked : List String)
    (stats : Stats) : List Achievement × List String :=
  AchievementManager.checkLoop AchievementManager.achievements unlocked stats

-- ==================== GAME ENGINE ====================

/-- The obstacle collision query of `checkCollisions` (via
`ObstacleManager.checkCollision(this.player)`). -/
def GameEngine.obstacleQuery (s : EngineState) : Option Obstacle :=
  ObstacleManager.checkCollision s.player s.obstacles

/-- The collectible collision query of `checkCollisions`. -/
def GameEngine.collectibleQuery (s : EngineState) : Option Collectible :=
  CollectibleManager.checkCollision s.player s.collectibles

/-- The power-up collision query of `checkCollisions`. -/
def GameEngine.powerupQuery (s : EngineState) : Option Powerup :=
  PowerupManager.checkCollision s.player s.powerups

/-- `GameEngine.gameOver()`: enter the terminal state, update the high
score, and run the achievement check against the persisted unlocked set
(the DOM work is not modelled). -/
def GameEngine.gameOver (s : EngineState) : EngineState :=
  let s := { s with state := GState.gameOver }
  let s :=
    if s.stats.score > s.stats.highScore then
      { s with stats := { s.stats with highScore := s.stats.score } }
    else s
  { s with unlocked :=
      (AchievementManager.checkAchievements s.unlocked s.stats).2 }

/-- `GameEngine.handleDamage()`: decrement lives, zero the combo, emit an
explosion when particles are enabled, then either transition to game over
(lives ≤ 0) or grant brief invincibility (whose 1500 ms clearing timeout
lives in the timed layer). -/
def GameEngine.handleDamage (o : Oracle) (s : EngineState) : EngineState :=
  let s := { s with stats := { s.stats with lives := s.stats.lives - 1, combo := 0 } }
  let s :=
    if s.settings.particles then
      let parts := ParticleSystem.createExplosion (o.explosionRand s.frameCount)
        o.jm (s.player.x + s.player.width / 2)
        (s.player.y + s.player.height / 2) "#f85149" 15 s.particles
      { s with particles := parts }
    else s
  if s.stats.lives ≤ 0 then GameEngine.gameOver s
  else { s with player := { s.player with invincible := true } }

/-- `GameEngine.handleCollectible()`: score bonus, streak, commit and combo
increments, `maxCombo = max(maxCombo, combo)`, and a burst of 8 particles
when particles are enabled. -/
def GameEngine.handleCollectible (o : Oracle) (s : EngineState) : EngineState :=
  let st := s.stats
  let st := { st with score := st.score + 100, streak := st.streak + 1,
                      commits := st.commits + 1, combo := st.combo + 1 }
  let st := { st with maxCombo := max st.maxCombo st.combo }
  let s := { s with stats := st }
  if s.settings.particles then
    let parts := ParticleSystem.createBurst (o.burstRand s.frameCount) o.jm
      (s.player.x + s.player.width / 2) (s.player.y + s.player.height / 2)
      "#39d353" 8 s.particles
    { s with particles := parts }
  else s

/-- `GameEngine.handlePowerup(powerup)`: `activatePowerup(type)` records the
active power-up (its expiry timeout lives in the timed layer), then a burst
of 12 particles when particles are enabled. -/
def GameEngine.handlePowerup (o : Oracle) (pu : Powerup) (s : EngineState) :
    EngineState :=
  let s := { s with activePowerup := some pu.type }
  if s.settings.particles then
    let parts := ParticleSystem.createBurst (o.puBurstRand s.frameCount) o.jm
      (pu.x + pu.width / 2) (pu.y + pu.height / 2) "#bc8cff" 12 s.particles
    { s with particles := parts }
  else s

/-- The obstacle branch of `checkCollisions`: if an obstacle overlaps and
the player is not invincible, apply damage and remove that obstacle. -/
def GameEngine.obstaclePass (o : Oracle) (s : EngineState) : EngineState :=
  match GameEngine.obstacleQuery s with
  | some ob =>
    if s.player.invincible then s
    else
      let s := GameEngine.handleDamage o s
      { s with obstacles := s.obstacles.erase ob }
  | none => s

/-- The collectible branch of `checkCollisions`. -/
def GameEngine.collectiblePass (o : Oracle) (s : EngineState) : EngineState :=
  match GameEngine.collectibleQuery s with
  | some c =>
    let s := GameEngine.handleCollectible o s
    { s with collectibles := s.collectibles.erase c }
  | none => s

/-- The power-up branch of `checkCollisions`. -/
def GameEngine.powerupPass (o : Oracle) (s : EngineState) : EngineState :=
  match GameEngine.powerupQuery s with
  | some pu =>
    let s := GameEngine.handlePowerup o pu s
    { s with powerups := s.powerups.erase pu }
  | none => s

/-- `GameEngine.checkCollisions()` (src/game.js lines 186-207): the three
branches in source order, also returning the `TickEvents` record of what
happened. -/
def GameEngine.checkCollisions (o : Oracle) (s : EngineState) :
    EngineState × TickEvents :=
  let hit := GameEngine.obstacleQuery s
  let dmg := hit.isSome && !s.player.invincible
  let s1 := GameEngine.obstaclePass o s
  let col := GameEngine.collectibleQuery s1
  let s2 := GameEngine.collectiblePass o s1
  let pu := GameEngine.powerupQuery s2
  let s3 := GameEngine.powerupPass o s2
  (s3,
   { obsHit := hit.isSome, colHit := col.isSome, puHit := pu.isSome,
     damaged := dmg,
     dmgTimeoutScheduled := dmg && decide (0 < s.stats.lives - 1),
     activated := pu.map (fun p => p.type) })

/-- The `currentSpeed` constant of `update`:
`this.stats.gameSpeed * this.stats.speedMultiplier`. -/
def GameEngine.currentSpeed (s : EngineState) : ℚ :=
  s.stats.gameSpeed * s.stats.speedMultiplier

/-- `GameEngine.update()` (src/game.js lines 150-184): no-op unless playing
and unpaused; otherwise advance the frame counter, update the player, apply
power-up effects, bump the speed every 500 frames (capped at 12), update the
three spawn managers and the particle system with
`currentSpeed = gameSpeed * speedMultiplier`, run the collision pass, and
accumulate `floor(currentSpeed / 10)` into the score.  (`background.update`
and the UI refresh are render-only and not modelled.) -/
def GameEngine.update (o : Oracle) (s : EngineState) :
    EngineState × TickEvents :=
  if s.state ≠ GState.playing ∨ s.isPaused = true then (s, noTickEvents)
  else
    let s := { s with frameCount := s.frameCount + 1 }
    let s := { s with player := Player.update s.player }
    let pe := PowerupManager.updateEffects s.activePowerup s.player s.stats
    let s := { s with player := pe.1, stats := pe.2 }
    let s :=
      if s.frameCount % 500 = 0 then
        { s with stats :=
            { s.stats with gameSpeed := min (s.stats.gameSpeed + 3/10) 12 } }
      else s
    let currentSpeed := GameEngine.currentSpeed s
    let obs := ObstacleManager.update currentSpeed s.frameCount
      (o.obsType s.frameCount) s.obstacles
    let s := { s with obstacles := obs }
    let cols := CollectibleManager.update o.jm currentSpeed s.frameCount
      (o.colY s.frameCount) (o.colPhase s.frameCount) s.collectibles
    let s := { s with collectibles := cols }
    let pus := PowerupManager.update o.jm currentSpeed s.frameCount
      (o.puGate s.frameCount) (o.puType s.frameCount)
      (o.puPhase s.frameCount) s.powerups
    let s := { s with powerups := pus }
    let s := { s with particles := ParticleSystem.update s.particles }
    let r := GameEngine.checkCollisions o s
    let s := r.1
    let s := { s with stats :=
        { s.stats with score := s.stats.score + Rat.floor (currentSpeed / 10) } }
    (s, r.2)

/-- The state part of one tick. -/
def GameEngine.step (o : Oracle) (s : EngineState) : EngineState :=
  (GameEngine.update o s).1

-- Named single-step functions used to state the fixed execution order of
-- `GameEngine.update` (claim C6).  Each recomputes
-- `currentSpeed = gameSpeed * speedMultiplier` from its input state; no
-- step between the speed update and the score update modifies either
-- factor, so this agrees with the single `currentSpeed` constant in the
-- source.

/-- Step 1 of `update`: `this.frameCount++`. -/
def GameEngine.frameStep (s : EngineState) : EngineState :=
  { s with frameCount := s.frameCount + 1 }

/-- Step 2 of `update`: `this.player.update()`. -/
def GameEngine.playerStep (s : EngineState) : EngineState :=
  { s with player := Player.update s.player }

/-- Step 3 of `update`: `this.powerupManager.updateEffects(player, stats)`. -/
def GameEngine.effectsStep (s : EngineState) : EngineState :=
  let pe := PowerupManager.updateEffects s.activePowerup s.player s.stats
  { s with player := pe.1, stats := pe.2 }

/-- Step 4 of `update`: the every-500-frames speed increase, capped at 12. -/
def GameEngine.speedStep (s : EngineState) : EngineState :=
  if s.frameCount % 500 = 0 then
    { s with stats :=
        { s.stats with gameSpeed := min (s.stats.gameSpeed + 3/10) 12 } }
  else s

/-- Step 5 of `update`: `this.obstacleManager.update(currentSpeed, frameCount)`. -/
def GameEngine.obstaclesStep (o : Oracle) (s : EngineState) : EngineState :=
  let obs := ObstacleManager.update
    (s.stats.gameSpeed * s.stats.speedMultiplier) s.frameCount
    (o.obsType s.frameCount) s.obstacles
  { s with obstacles := obs }

/-- Step 6 of `update`: `this.collectibleManager.update(currentSpeed, frameCount)`. -/
def GameEngine.collectiblesStep (o : Oracle) (s : EngineState) : EngineState :=
  let cols := CollectibleManager.update o.jm
    (s.stats.gameSpeed * s.stats.speedMultiplier) s.frameCount
    (o.colY s.frameCount) (o.colPhase s.frameCount) s.collectibles
  { s with collectibles := cols }

/-- Step 7 of `update`: `this.powerupManager.update(currentSpeed, frameCount)`. -/
def GameEngine.powerupsStep (o : Oracle) (s : EngineState) : EngineState :=
  let pus := PowerupManager.update o.jm
    (s.stats.gameSpeed * s.stats.speedMultiplier) s.frameCount
    (o.puGate s.frameCount) (o.puType s.frameCount)
    (o.puPhase s.frameCount) s.powerups
  { s with powerups := pus }

/-- Step 8 of `update`: `this.particleSystem.update()`. -/
def GameEngine.particlesStep (s : EngineState) : EngineState :=
  { s with particles := ParticleSystem.update s.particles }

/-- Step 9 of `update`: `this.checkCollisions()` (state part). -/
def GameEngine.collisionsStep (o : Oracle) (s : EngineState) : EngineState :=
  (GameEngine.checkCollisions o s).1

/-- Step 10 of `update`: `this.stats.score += Math.floor(currentSpeed / 10)`,
with the `currentSpeed` value fixed after the speed update (step 4). -/
def GameEngine.scoreStepAt (currentSpeed : ℚ) (s : EngineState) : EngineState :=
  { s with stats :=
      { s.stats with score := s.stats.score + Rat.floor (currentSpeed / 10) } }

/-- Steps 1-4 of `update` composed (frame counter, player, power-up
effects, speed update) — the state from which `currentSpeed` is read. -/
def GameEngine.midSteps (s : EngineState) : EngineState :=
  GameEngine.speedStep (GameEngine.effectsStep
    (GameEngine.playerStep (GameEngine.frameStep s)))

/-- Steps 1-8 of `update` composed — the state the collision pass runs
on. -/
def GameEngine.preSteps (o : Oracle) (s : EngineState) : EngineState :=
  GameEngine.particlesStep (GameEngine.powerupsStep o
    (GameEngine.collectiblesStep o
      (GameEngine.obstaclesStep o (GameEngine.midSteps s))))

-- ==================== INPUT HANDLING ====================

/-- The keys the keydown listener distinguishes; `pKey` stands for both
'p' and 'P', `escape` for 'Escape'. -/
inductive Key where
  | arrowUp
  | space
  | arrowDown
  | escape
  | pKey
  | other
deriving DecidableEq

/-- `GameEngine.resumeGame()` (state part). -/
def GameEngine.resumeGame (s : EngineState) : EngineState :=
  { s with isPaused := false }

/-- `GameEngine.pauseGame()`: only pauses while playing. -/
def GameEngine.pauseGame (s : EngineState) : EngineState :=
  if s.state = GState.playing then { s with isPaused := true } else s

/-- The keydown listener of `initializeEventListeners` (src/game.js lines
393-415): outside active play only Escape/p can resume; during play the
jump and slide guards require `!jumping && !sliding`, and Escape/p pause. -/
def GameEngine.onKeydown (k : Key) (s : EngineState) : EngineState :=
  if s.state ≠ GState.playing ∨ s.isPaused = true then
    if (k = Key.escape ∨ k = Key.pKey) ∧ s.isPaused = true then
      GameEngine.resumeGame s
    else s
  else
    let s :=
      if (k = Key.arrowUp ∨ k = Key.space) ∧ s.player.jumping = false ∧
          s.player.sliding = false then
        { s with player := Player.jump s.player }
      else s
    let s :=
      if k = Key.arrowDown ∧ s.player.jumping = false ∧
          s.player.sliding = false then
        { s with player := Player.slide s.player }
      else s
    if k = Key.escape ∨ k = Key.pKey then GameEngine.pauseGame s else s

-- ==================== TICK ITERATION ====================

/-- Run `n` consecutive ticks.  (Destructuring the state keeps kernel
evaluation of concrete runs shallow.) -/
def GameEngine.runTicks (o : Oracle) : ℕ → EngineState → EngineState
  | 0, s => s
  | n + 1, ⟨st, fc, pz, se, stt, pl, obs, cols, pus, ap, parts, unl⟩ =>
    GameEngine.runTicks o n
      (GameEngine.step o ⟨st, fc, pz, se, stt, pl, obs, cols, pus, ap, parts, unl⟩)

/-- `noCollisionsFor o s n` holds when in each of the next `n` ticks all
three collision queries of the collision pass come up empty (no obstacle,
collectible or power-up collision occurs). -/
def GameEngine.noCollisionsFor (o : Oracle) : EngineState → ℕ → Bool
  | _, 0 => true
  | s, n + 1 =>
    let r := GameEngine.update o s
    !r.2.obsHit && !r.2.colHit && !r.2.puHit &&
      GameEngine.noCollisionsFor o r.1 n

-- ==================== TIMED EVENT LAYER ====================

/-- A session state together with wall-clock bookkeeping: the current time
in ms, the fire times of pending `handleDamage` timeouts (which clear
`player.invincible` after 1500 ms), and the fire times of pending
`activatePowerup` timeouts (which clear `activePowerup` after
`duration` = 5000 ms). -/
structure TState where
  eng : EngineState
  now : ℕ
  dmgTimers : List ℕ
  puTimers : List ℕ
deriving DecidableEq

/-- The events that touch the modelled state between ticks: an
animation-frame tick, the firing of one of the two kinds of timeouts, and
the pause/resume inputs. -/
inductive TEvent where
  | tick
  | dmgFire
  | puFire
  | pause
  | resume
deriving DecidableEq

/-- Execute one event at wall-clock time `t`. -/
def stepEvent (o : Oracle) (s : TState) (e : TEvent) (t : ℕ) : TState :=
  match e with
  | TEvent.tick =>
    let r := GameEngine.update o s.eng
    let newPu : List ℕ :=
      match r.2.activated with
      | some ty => [t + PowerupManager.durationOf ty]
      | none => []
    { eng := r.1, now := t,
      dmgTimers :=
        s.dmgTimers ++ (if r.2.dmgTimeoutScheduled then [t + 1500] else []),
      puTimers := s.puTimers ++ newPu }
  | TEvent.dmgFire =>
    { s with
      eng := { s.eng with player := { s.eng.player with invincible := false } },
      now := t, dmgTimers := s.dmgTimers.erase t }
  | TEvent.puFire =>
    { s with eng := { s.eng with activePowerup := none }, now := t,
             puTimers := s.puTimers.erase t }
  | TEvent.pause => { s with eng := GameEngine.pauseGame s.eng, now := t }
  | TEvent.resume => { s with eng := GameEngine.resumeGame s.eng, now := t }

/-- Admissibility of an event at time `t`: time is monotone, no event may
run while an earlier-scheduled timeout is overdue (the JS event loop runs
due timers first), and a timer event fires exactly at one of its scheduled
times. -/
def eventValid (s : TState) (e : TEvent) (t : ℕ) : Bool :=
  decide (s.now ≤ t) &&
  s.dmgTimers.all (fun f => decide (t ≤ f)) &&
  s.puTimers.all (fun f => decide (t ≤ f)) &&
  (match e with
   | TEvent.dmgFire => s.dmgTimers.contains t
   | TEvent.puFire => s.puTimers.contains t
   | _ => true)

/-- Run a timed trace. -/
def runTrace (o : Oracle) : TState → List (TEvent × ℕ) → TState
  | s, [] => s
  | s, (e, t) :: rest => runTrace o (stepEvent o s e t) rest

/-- A trace is valid when every event is admissible in the state it runs
in. -/
def traceValid (o : Oracle) : TState → List (TEvent × ℕ) → Bool
  | _, [] => true
  | s, (e, t) :: rest =>
    eventValid s e t && traceValid o (stepEvent o s e t) rest

-- ==================== CONCRETE TEST DATA ====================

/-- A concrete interpretation of the JS math functions (the claims hold for
every interpretation; witnesses fix this one). -/
def zeroJsMath : JsMath := { sin := fun _ => 0, cos := fun _ => 0, pi := 0 }

/-- A concrete random oracle: the spawner always picks the "conflict"
obstacle and the y = 300 collectible row, and the 50% power-up gate always
fails. -/
def testOracle : Oracle :=
  { jm := zeroJsMath, obsType := fun _ => 1, colY := fun _ => 0,
    colPhase := fun _ => 0, puGate := fun _ => false, puType := fun _ => 0,
    puPhase := fun _ => 0, burstRand := fun _ _ => 0,
    puBurstRand := fun _ _ => 0, explosionRand := fun _ _ => 0 }

/-- A player standing on the ground in the running state. -/
def groundedPlayer : Player :=
  { x := 100, y := 380, width := 32, height := 32, velocityY := 0,
    jumping := false, sliding := false, slideTimer := 0, invincible := false }

/-- Default settings with particles disabled (the settings only gate the
purely visual particle emissions). -/
def baseSettings : Settings :=
  { sound := true, music := true, particles := false, screenShake := true }

/-- A playing, unpaused state at the speed cap 12 with empty entity lists
and no active power-up. -/
def steadyState : EngineState :=
  { state := GState.playing, frameCount := 0, isPaused := false,
    settings := baseSettings,
    stats := { score := 0, streak := 0, highScore := 0, lives := 3,
               combo := 0, maxCombo := 0, commits := 0, gameSpeed := 12,
               speedMultiplier := 1 },
    player := groundedPlayer, obstacles := [], collectibles := [],
    powerups := [], activePowerup := none, particles := [], unlocked := [] }

/-- The same state but with a slow-motion power-up still active (reachable:
the tick that picks up a slow-mo sets `activePowerup` after
`updateEffects` already ran, so `speedMultiplier` is still 1 at the end of
that tick). -/
def slowmoState : EngineState :=
  { steadyState with activePowerup := some "slowmo" }




/-- `n` consecutive calls of `ParticleSystem.update()`. -/
def ParticleSystem.updates : ℕ → List Particle → List Particle
  | 0, ps => ps
  | n + 1, ps => ParticleSystem.updates n (ParticleSystem.update ps)

/-- A family of states on which the collision pass provably finds nothing,
tick after tick, under `testOracle`: the session is in active play, the
player is standing on the ground (`y = 380`), every obstacle's and
collectible's box ends at or above the ground line (true of the "conflict"
obstacle and the `y = 300` collectible row that `testOracle` always
selects), and no power-up is on screen. -/
def SafeState (s : EngineState) : Prop :=
  s.state = GState.playing ∧ s.isPaused = false ∧
  s.player.y = 380 ∧ s.player.velocityY = 0 ∧ s.player.sliding = false ∧
  (∀ ob ∈ s.obstacles, ob.y + ob.height ≤ 380) ∧
  (∀ c ∈ s.collectibles, c.y + c.height ≤ 380) ∧
  s.powerups = []

/-- A playing state whose player is mid-jump (for the input-guard witness). -/
def jumpingState : EngineState :=
  { steadyState with player :=
      { groundedPlayer with jumping := true, y := 300, velocityY := -5 } }

/-- A "bug" obstacle placed directly on the player. -/
def bugObstacle : Obstacle :=
  { x := 100, y := 380, width := 32, height := 32, type := "bug",
    color := "#f85149" }

/-- A playing state in which an obstacle overlaps an invincible player. -/
def invincibleHitState : EngineState :=
  { steadyState with
    player := { groundedPlayer with invincible := true },
    obstacles := [bugObstacle] }

/-- A state in which the invincibility power-up is currently active. -/
def invincActiveState : EngineState :=
  { steadyState with activePowerup := some "invincibility" }

/-- An invincibility power-up sitting right on the player. -/
def invincPowerup : Powerup :=
  { x := 100, y := 360, width := 32, height := 32, type := "invincibility",
    color := "#bc8cff", duration := 5000, floatOffset := 0, floatPhase := 0 }

/-- A playing state about to pick up the invincibility power-up on its next
tick. -/
def pickupState : EngineState :=
  { steadyState with powerups := [invincPowerup] }

/-- Timed session: at time 0, the pickup is about to happen. -/
def pickupT0 : TState :=
  { eng := pickupState, now := 0, dmgTimers := [], puTimers := [] }

/-- A timed trace in which the power-up is collected at time 0, the game is
paused for the power-up's whole 5000 ms window, the expiry timeout fires
during the pause, and play resumes afterwards: the tick at 5516 ms runs
with `activePowerup = none` and `invincible` still false. -/
def pauseAcrossExpiryTrace : List (TEvent × ℕ) :=
  [(TEvent.tick, 0), (TEvent.pause, 1), (TEvent.tick, 16),
   (TEvent.puFire, 5000), (TEvent.resume, 5500), (TEvent.tick, 5516)]

/-- Timed session whose player is already invincible with no pending damage
timeout (for the persistence witness). -/
def persistT0 : TState :=
  { eng := { steadyState with
               player := { groundedPlayer with invincible := true } },
    now := 0, dmgTimers := [], puTimers := [] }

/-- A short valid trace of ticks, a pause and a resume. -/
def persistTrace : List (TEvent × ℕ) :=
  [(TEvent.tick, 0), (TEvent.pause, 16), (TEvent.resume, 100),
   (TEvent.tick, 116)]

/-- A particle one tick away from expiry (its presence refutes the claim
that the particle list length always returns to its pre-burst value). -/
def dyingParticle : Particle :=
  { x := 0, y := 0, vx := 0, vy := 0, size := 4, color := "#ffffff",
    life := 1, maxLife := 40, alpha := 1, gravity := 0, glow := false,
    shape := "square", shrink := false, type := none }

/-- A paused session (for the no-op witness). -/
def pausedState : EngineState :=
  { steadyState with isPaused := true }

-- ==================== HELPER LEMMAS: PARTICLES ====================

theorem ParticleSystem.update_append (a b : List Particle) :
    ParticleSystem.update (a ++ b)
      = ParticleSystem.update a ++ ParticleSystem.update b := by
  simp [ParticleSystem.update]

theorem ParticleSystem.updates_append (n : ℕ) (a b : List Particle) :
    ParticleSystem.updates n (a ++ b)
      = ParticleSystem.updates n a ++ ParticleSystem.updates n b := by
  induction n generalizing a b with
  | zero => rfl
  | succ n ih =>
    show ParticleSystem.updates n (ParticleSystem.update (a ++ b)) = _
    rw [ParticleSystem.update_append, ih]
    rfl

theorem ParticleSystem.updateParticle_life (p : Particle) :
    (ParticleSystem.updateParticle p).life = p.life - 1 := by
  unfold ParticleSystem.updateParticle
  dsimp only
  repeat' split
  all_goals rfl

theorem ParticleSystem.mem_update {p : Particle} {l : List Particle}
    (h : p ∈ ParticleSystem.update l) :
    ∃ q ∈ l, p = ParticleSystem.updateParticle q := by
  simp only [ParticleSystem.update, List.mem_filter, List.mem_map] at h
  obtain ⟨⟨q, hq, rfl⟩, _⟩ := h
  exact ⟨q, hq, rfl⟩

theorem ParticleSystem.updates_nil_of_life_le (k : ℕ) :
    ∀ l : List Particle, (∀ p ∈ l, p.life ≤ (k : ℤ) + 1) →
      ParticleSystem.updates (k + 1) l = [] := by
  induction k with
  | zero =>
    intro l h
    have hu : ParticleSystem.update l = [] := by
      simp only [ParticleSystem.update, List.filter_eq_nil_iff, List.mem_map]
      rintro p ⟨q, hq, rfl⟩
      have hle := h q hq
      simp only [ParticleSystem.updateParticle_life, Bool.and_eq_true,
        decide_eq_true_eq, not_and, gt_iff_lt]
      intro hgt
      omega
    show ParticleSystem.updates 0 (ParticleSystem.update l) = []
    rw [hu]
    rfl
  | succ k ih =>
    intro l h
    show ParticleSystem.updates (k + 1) (ParticleSystem.update l) = []
    apply ih
    intro p hp
    obtain ⟨q, hq, rfl⟩ := ParticleSystem.mem_update hp
    have hle := h q hq
    rw [ParticleSystem.updateParticle_life]
    omega

theorem ParticleSystem.updates_append_dead (ps L : List Particle)
    (h : ∀ p ∈ L, p.life ≤ 30) :
    ParticleSystem.updates 30 (ps ++ L) = ParticleSystem.updates 30 ps := by
  rw [ParticleSystem.updates_append]
  have hb : ParticleSystem.updates 30 L = [] := by
    apply ParticleSystem.updates_nil_of_life_le 29
    intro p hp
    have := h p hp
    omega
  rw [hb, List.append_nil]

theorem ParticleSystem.updates_createBurst_eight (rand : ℕ → ℚ) (jm : JsMath)
    (x y : ℚ) (color : String) (ps : List Particle) :
    ParticleSystem.updates 30
        (ParticleSystem.createBurst rand jm x y color 8 ps)
      = ParticleSystem.updates 30 ps := by
  unfold ParticleSystem.createBurst
  apply ParticleSystem.updates_append_dead
  rintro p hp
  simp only [List.mem_map, List.mem_range] at hp
  obtain ⟨i, _, rfl⟩ := hp
  norm_num

-- ==================== HELPER LEMMAS: ACHIEVEMENTS ====================

theorem AchievementManager.checkLoop_fst (c : List Achievement) :
    ∀ (u : List String) (st : Stats), (c.map (fun a => a.id)).Nodup →
      (AchievementManager.checkLoop c u st).1
        = c.filter (fun a => !(u.contains a.id) && a.req st) := by
  induction c with
  | nil => intro u st _; rfl
  | cons a rest ih =>
    intro u st hnd
    have hnd' : (rest.map (fun a => a.id)).Nodup := (List.nodup_cons.mp hnd).2
    have hnotin : a.id ∉ rest.map (fun a => a.id) := (List.nodup_cons.mp hnd).1
    have hfc : rest.filter (fun b => !((u ++ [a.id]).contains b.id) && b.req st)
        = rest.filter (fun b => !(u.contains b.id) && b.req st) := by
      apply List.filter_congr
      intro b hb
      have hne : b.id ≠ a.id := fun hEq =>
        hnotin (hEq ▸ List.mem_map_of_mem (fun a => a.id) hb)
      have hcb : (u ++ [a.id]).contains b.id = u.contains b.id := by
        simp [List.contains, List.mem_append, hne]
      rw [hcb]
    unfold AchievementManager.checkLoop
    rw [List.filter_cons]
    by_cases hc : u.contains a.id = false ∧ a.req st = true
    · rw [if_pos hc]
      show a :: (AchievementManager.checkLoop rest (u ++ [a.id]) st).1 = _
      rw [if_pos (show (!(u.contains a.id) && a.req st) = true by rw [hc.1, hc.2]; rfl),
        ih (u ++ [a.id]) st hnd', hfc]
    · rw [if_neg hc, if_neg ?hcond, ih u st hnd']
      case hcond =>
        intro h'
        rw [Bool.and_eq_true, Bool.not_eq_true'] at h'
        exact hc h'

theorem AchievementManager.checkLoop_snd_mono (c : List Achievement) :
    ∀ (u : List String) (st : Stats) (x : String),
      x ∈ u → x ∈ (AchievementManager.checkLoop c u st).2 := by
  induction c with
  | nil => intro u st x hx; exact hx
  | cons a rest ih =>
    intro u st x hx
    unfold AchievementManager.checkLoop
    by_cases hc : u.contains a.id = false ∧ a.req st = true
    · rw [if_pos hc]
      exact ih (u ++ [a.id]) st x (List.mem_append_left _ hx)
    · rw [if_neg hc]
      exact ih u st x hx

theorem AchievementManager.checkLoop_snd_complete (c : List Achievement) :
    ∀ (u : List String) (st : Stats) (a : Achievement),
      a ∈ c → a.req st = true →
        a.id ∈ (AchievementManager.checkLoop c u st).2 := by
  induction c with
  | nil => intro u st a ha _; exact absurd ha (List.not_mem_nil a)
  | cons b rest ih =>
    intro u st a ha hreq
    unfold AchievementManager.checkLoop
    by_cases hc : u.contains b.id = false ∧ b.req st = true
    · rw [if_pos hc]
      show a.id ∈ (AchievementManager.checkLoop rest (u ++ [b.id]) st).2
      rcases List.mem_cons.mp ha with rfl | ha'
      · exact AchievementManager.checkLoop_snd_mono rest (u ++ [a.id]) st a.id
          (List.mem_append_right _ (List.mem_singleton.mpr rfl))
      · exact ih (u ++ [b.id]) st a ha' hreq
    · rw [if_neg hc]
      rcases List.mem_cons.mp ha with rfl | ha'
      · have hcont : u.contains a.id = true := by
          cases hcontc : u.contains a.id with
          | true => rfl
          | false => exact absurd ⟨hcontc, hreq⟩ hc
        have hmem : a.id ∈ u := by simpa [List.contains] using hcont
        exact AchievementManager.checkLoop_snd_mono rest u st a.id hmem
      · exact ih u st a ha' hreq

theorem AchievementManager.achievements_ids_nodup :
    (AchievementManager.achievements.map (fun a => a.id)).Nodup := by
  simp [AchievementManager.achievements]

-- ==================== CLAIM THEOREMS (first group) ====================

unseal Rat.add Rat.mul Rat.sub Rat.inv in
/-- C2: the collision predicate is exactly strict AABB overlap; rectangles
that merely touch at an edge do not collide, overlapping ones do. -/
theorem isColliding_strict_overlap :
    (∀ A B : Rect,
      ObstacleManager.isColliding A B = true ↔
        (A.x < B.x + B.width ∧ A.x + A.width > B.x ∧
         A.y < B.y + B.height ∧ A.y + A.height > B.y)) ∧
    ObstacleManager.isColliding ⟨0, 0, 10, 10⟩ ⟨5, 0, 10, 10⟩ = true ∧
    ObstacleManager.isColliding ⟨0, 0, 10, 10⟩ ⟨10, 0, 10, 10⟩ = false := by
  refine ⟨fun A B => ?_, by decide, by decide⟩
  simp [ObstacleManager.isColliding, and_assoc]

/-- C3: one `ObstacleManager.update(speed, f)` call appends exactly one new
obstacle — at x = 900 with size and y from the type table — when
`f % 120 == 0`, and appends none otherwise; only the type choice is
randomized, never the timing. -/
theorem obstacle_spawn_schedule (speed : ℚ) (f : ℕ) (choice : Fin 3)
    (obs : List Obstacle) :
    ObstacleManager.update speed f choice obs
        = ObstacleManager.moveAndCull speed obs ++
            (if f % 120 = 0 then [ObstacleManager.spawn choice] else []) ∧
    (ObstacleManager.update speed f choice obs).length
        = (ObstacleManager.moveAndCull speed obs).length +
            (if f % 120 = 0 then 1 else 0) ∧
    (ObstacleManager.spawn choice).x = 900 ∧
    (ObstacleManager.spawn choice).width
        = (ObstacleManager.types.get ⟨choice.val, choice.isLt⟩).width ∧
    (ObstacleManager.spawn choice).height
        = (ObstacleManager.types.get ⟨choice.val, choice.isLt⟩).height ∧
    (ObstacleManager.spawn choice).y
        = (ObstacleManager.types.get ⟨choice.val, choice.isLt⟩).y := by
  refine ⟨?_, ?_, rfl, rfl, rfl, rfl⟩ <;>
  · unfold ObstacleManager.update
    split <;> simp

/-- C7 (amended): a burst of 8 particles lengthens the list by exactly 8,
and after 30 `update` calls with no further emission every burst particle
has been removed, so the list is exactly what 30 updates of the pre-burst
list give; in particular a burst into an empty list returns it to length 0.
(The original claim that the length always returns to its pre-burst value
fails when pre-existing particles expire during those 30 ticks.) -/
theorem burst_adds_eight_and_decays (rand : ℕ → ℚ) (jm : JsMath) (x y : ℚ)
    (color : String) (ps : List Particle) :
    (ParticleSystem.createBurst rand jm x y color 8 ps).length
        = ps.length + 8 ∧
    ParticleSystem.updates 30
        (ParticleSystem.createBurst rand jm x y color 8 ps)
      = ParticleSystem.updates 30 ps ∧
    ParticleSystem.updates 30
        (ParticleSystem.createBurst rand jm x y color 8 []) = [] := by
  refine ⟨by simp [ParticleSystem.createBurst],
    ParticleSystem.updates_createBurst_eight rand jm x y color ps, ?_⟩
  rw [ParticleSystem.updates_createBurst_eight]
  rfl

/-- C7 counterexample: bursting 8 particles into a list holding one
particle with a single tick of life left and running 30 updates leaves 0
particles, not the pre-burst length 1. -/
theorem burst_length_not_restored :
    (ParticleSystem.createBurst (fun _ => 0) zeroJsMath 0 0 "#39d353" 8
        [dyingParticle]).length = [dyingParticle].length + 8 ∧
    (ParticleSystem.updates 30
        (ParticleSystem.createBurst (fun _ => 0) zeroJsMath 0 0 "#39d353" 8
          [dyingParticle])).length = 0 ∧
    ([dyingParticle] : List Particle).length = 1 := by
  refine ⟨by simp [ParticleSystem.createBurst], ?_, rfl⟩
  rw [ParticleSystem.updates_createBurst_eight]
  have h : ParticleSystem.updates 30 [dyingParticle] = [] := by
    apply ParticleSystem.updates_nil_of_life_le 29
    intro p hp
    rw [List.mem_singleton] at hp
    subst hp
    norm_num [dyingParticle]
  rw [h]
  rfl

/-- C8: `checkAchievements` returns exactly the catalog entries whose
predicate holds that were not yet unlocked, and a second call with the same
stats against the updated unlocked set returns the empty list. -/
theorem checkAchievements_idempotent (u : List String) (st : Stats) :
    (AchievementManager.checkAchievements u st).1
        = AchievementManager.achievements.filter
            (fun a => !(u.contains a.id) && a.req st) ∧
    (AchievementManager.checkAchievements
        (AchievementManager.checkAchievements u st).2 st).1 = [] := by
  constructor
  · exact AchievementManager.checkLoop_fst _ u st
      AchievementManager.achievements_ids_nodup
  · rw [AchievementManager.checkAchievements,
      AchievementManager.checkLoop_fst _ _ st
        AchievementManager.achievements_ids_nodup,
      List.filter_eq_nil_iff]
    intro a ha
    cases h : a.req st with
    | false => simp [h]
    | true =>
      have hmem : a.id ∈ (AchievementManager.checkAchievements u st).2 :=
        AchievementManager.checkLoop_snd_complete _ u st a ha h
      simp [List.contains, hmem, h]

-- ==================== HELPER LEMMAS: ENGINE TICK ====================

theorem GameEngine.update_noop (o : Oracle) (s : EngineState)
    (h : s.state ≠ GState.playing ∨ s.isPaused = true) :
    GameEngine.update o s = (s, noTickEvents) := by
  unfold GameEngine.update
  rw [if_pos h]

theorem GameEngine.update_playing (o : Oracle) (s : EngineState)
    (h1 : s.state = GState.playing) (h2 : s.isPaused = false) :
    GameEngine.update o s =
      (let s4 := GameEngine.speedStep (GameEngine.effectsStep
          (GameEngine.playerStep (GameEngine.frameStep s)))
       let s9 := GameEngine.particlesStep (GameEngine.powerupsStep o
          (GameEngine.collectiblesStep o (GameEngine.obstaclesStep o s4)))
       let r := GameEngine.checkCollisions o s9
       (GameEngine.scoreStepAt (GameEngine.currentSpeed s4) r.1, r.2)) := by
  unfold GameEngine.update
  rw [if_neg (by simp [h1, h2])]
  rfl

theorem GameEngine.checkCollisions_fst (o : Oracle) (s : EngineState) :
    (GameEngine.checkCollisions o s).1
      = GameEngine.powerupPass o (GameEngine.collectiblePass o
          (GameEngine.obstaclePass o s)) := rfl

-- Field preservation through the pre-collision steps.

theorem GameEngine.frameStep_stats (s : EngineState) :
    (GameEngine.frameStep s).stats = s.stats := rfl

theorem GameEngine.playerStep_stats (s : EngineState) :
    (GameEngine.playerStep s).stats = s.stats := rfl

theorem GameEngine.effectsStep_stats (s : EngineState) :
    (GameEngine.effectsStep s).stats
      = { s.stats with speedMultiplier :=
            if s.activePowerup = some "slowmo" then 1/2 else 1 } := by
  unfold GameEngine.effectsStep PowerupManager.updateEffects
  dsimp only
  split <;> simp [*]

theorem GameEngine.effectsStep_player (s : EngineState) :
    (GameEngine.effectsStep s).player
      = (if s.activePowerup = some "invincibility" then
          { s.player with invincible := true } else s.player) := by
  unfold GameEngine.effectsStep PowerupManager.updateEffects
  rfl

theorem GameEngine.effectsStep_activePowerup (s : EngineState) :
    (GameEngine.effectsStep s).activePowerup = s.activePowerup := rfl

theorem GameEngine.effectsStep_state (s : EngineState) :
    (GameEngine.effectsStep s).state = s.state := rfl

theorem GameEngine.effectsStep_isPaused (s : EngineState) :
    (GameEngine.effectsStep s).isPaused = s.isPaused := rfl

theorem GameEngine.speedStep_stats_eq (s : EngineState) :
    (GameEngine.speedStep s).stats
      = { s.stats with gameSpeed :=
            if s.frameCount % 500 = 0 then min (s.stats.gameSpeed + 3/10) 12
            else s.stats.gameSpeed } := by
  unfold GameEngine.speedStep
  split <;> simp [*]

theorem GameEngine.speedStep_eq (s : EngineState) :
    GameEngine.speedStep s = { s with stats := (GameEngine.speedStep s).stats } := by
  unfold GameEngine.speedStep
  split <;> rfl

theorem GameEngine.obstaclesStep_stats (o : Oracle) (s : EngineState) :
    (GameEngine.obstaclesStep o s).stats = s.stats := rfl

theorem GameEngine.collectiblesStep_stats (o : Oracle) (s : EngineState) :
    (GameEngine.collectiblesStep o s).stats = s.stats := rfl

theorem GameEngine.powerupsStep_stats (o : Oracle) (s : EngineState) :
    (GameEngine.powerupsStep o s).stats = s.stats := rfl

theorem GameEngine.particlesStep_stats (s : EngineState) :
    (GameEngine.particlesStep s).stats = s.stats := rfl

theorem GameEngine.scoreStepAt_stats (cs : ℚ) (s : EngineState) :
    (GameEngine.scoreStepAt cs s).stats
      = { s.stats with score := s.stats.score + Rat.floor (cs / 10) } := rfl

-- Handler stat effects.

theorem GameEngine.gameOver_stats (s : EngineState) :
    (GameEngine.gameOver s).stats
      = { s.stats with highScore := max s.stats.highScore s.stats.score } := by
  unfold GameEngine.gameOver
  dsimp only
  split
  · rename_i h
    simp [max_eq_right (le_of_lt h)]
  · rename_i h
    simp [max_eq_left (le_of_not_lt h)]

theorem GameEngine.handleDamage_combo (o : Oracle) (s : EngineState) :
    (GameEngine.handleDamage o s).stats.combo = 0 := by
  unfold GameEngine.handleDamage GameEngine.gameOver
  dsimp only
  repeat' split
  all_goals rfl

theorem GameEngine.handleDamage_maxCombo (o : Oracle) (s : EngineState) :
    (GameEngine.handleDamage o s).stats.maxCombo = s.stats.maxCombo := by
  unfold GameEngine.handleDamage GameEngine.gameOver
  dsimp only
  repeat' split
  all_goals rfl

theorem GameEngine.handleDamage_lives (o : Oracle) (s : EngineState) :
    (GameEngine.handleDamage o s).stats.lives = s.stats.lives - 1 := by
  unfold GameEngine.handleDamage GameEngine.gameOver
  dsimp only
  repeat' split
  all_goals rfl

theorem GameEngine.handleCollectible_stats (o : Oracle) (s : EngineState) :
    (GameEngine.handleCollectible o s).stats
      = { s.stats with
          score := s.stats.score + 100, streak := s.stats.streak + 1,
          commits := s.stats.commits + 1, combo := s.stats.combo + 1,
          maxCombo := max s.stats.maxCombo (s.stats.combo + 1) } := by
  unfold GameEngine.handleCollectible
  dsimp only
  split <;> rfl

theorem GameEngine.handlePowerup_stats (o : Oracle) (pu : Powerup)
    (s : EngineState) :
    (GameEngine.handlePowerup o pu s).stats = s.stats := by
  unfold GameEngine.handlePowerup
  dsimp only
  split <;> rfl

theorem GameEngine.handlePowerup_activePowerup (o : Oracle) (pu : Powerup)
    (s : EngineState) :
    (GameEngine.handlePowerup o pu s).activePowerup = some pu.type := by
  unfold GameEngine.handlePowerup
  dsimp only
  split <;> rfl

-- Pass-level preservation.

theorem GameEngine.obstaclePass_maxCombo (o : Oracle) (s : EngineState) :
    (GameEngine.obstaclePass o s).stats.maxCombo = s.stats.maxCombo := by
  unfold GameEngine.obstaclePass
  split
  · split
    · rfl
    · show (GameEngine.handleDamage o s).stats.maxCombo = _
      rw [GameEngine.handleDamage_maxCombo]
  · rfl

theorem GameEngine.collectiblePass_maxCombo (o : Oracle) (s : EngineState) :
    s.stats.maxCombo ≤ (GameEngine.collectiblePass o s).stats.maxCombo := by
  unfold GameEngine.collectiblePass
  split
  · show s.stats.maxCombo ≤ (GameEngine.handleCollectible o s).stats.maxCombo
    rw [GameEngine.handleCollectible_stats]
    exact le_max_left _ _
  · exact le_refl _

theorem GameEngine.powerupPass_maxCombo (o : Oracle) (s : EngineState) :
    (GameEngine.powerupPass o s).stats.maxCombo = s.stats.maxCombo := by
  unfold GameEngine.powerupPass
  split
  · show (GameEngine.handlePowerup o _ s).stats.maxCombo = _
    rw [GameEngine.handlePowerup_stats]
  · rfl

theorem GameEngine.checkCollisions_maxCombo (o : Oracle) (s : EngineState) :
    s.stats.maxCombo ≤ (GameEngine.checkCollisions o s).1.stats.maxCombo := by
  rw [GameEngine.checkCollisions_fst, GameEngine.powerupPass_maxCombo]
  calc s.stats.maxCombo
      = (GameEngine.obstaclePass o s).stats.maxCombo :=
        (GameEngine.obstaclePass_maxCombo o s).symm
    _ ≤ _ := GameEngine.collectiblePass_maxCombo o _

theorem GameEngine.speedStep_maxCombo (s : EngineState) :
    (GameEngine.speedStep s).stats.maxCombo = s.stats.maxCombo := by
  unfold GameEngine.speedStep
  split <;> rfl

theorem GameEngine.effectsStep_maxCombo (s : EngineState) :
    (GameEngine.effectsStep s).stats.maxCombo = s.stats.maxCombo := by
  unfold GameEngine.effectsStep PowerupManager.updateEffects
  dsimp only
  split <;> rfl

theorem GameEngine.scoreStepAt_maxCombo (cs : ℚ) (s : EngineState) :
    (GameEngine.scoreStepAt cs s).stats.maxCombo = s.stats.maxCombo := rfl

theorem GameEngine.collectiblePass_obstacles (o : Oracle) (s : EngineState) :
    (GameEngine.collectiblePass o s).obstacles = s.obstacles := by
  unfold GameEngine.collectiblePass GameEngine.handleCollectible
  dsimp only
  repeat' split
  all_goals rfl

theorem GameEngine.powerupPass_obstacles (o : Oracle) (s : EngineState) :
    (GameEngine.powerupPass o s).obstacles = s.obstacles := by
  unfold GameEngine.powerupPass GameEngine.handlePowerup
  dsimp only
  repeat' split
  all_goals rfl

theorem GameEngine.collectiblePass_lives (o : Oracle) (s : EngineState) :
    (GameEngine.collectiblePass o s).stats.lives = s.stats.lives := by
  unfold GameEngine.collectiblePass GameEngine.handleCollectible
  dsimp only
  repeat' split
  all_goals rfl

theorem GameEngine.powerupPass_lives (o : Oracle) (s : EngineState) :
    (GameEngine.powerupPass o s).stats.lives = s.stats.lives := by
  unfold GameEngine.powerupPass GameEngine.handlePowerup
  dsimp only
  repeat' split
  all_goals rfl

-- ==================== CLAIM THEOREMS (second group) ====================

/-- C1: an obstacle collision (`handleDamage`) resets `combo` to 0 and
leaves `maxCombo` unchanged; a collectible pickup (`handleCollectible`)
increments `combo` and then sets `maxCombo = max(maxCombo, combo)`; and
`maxCombo` never decreases across any tick of the update loop. -/
theorem combo_reset_and_maxCombo_monotone (o : Oracle) (s : EngineState)
    (hs : s.state = GState.playing) :
    (GameEngine.handleDamage o s).stats.combo = 0 ∧
    (GameEngine.handleDamage o s).stats.maxCombo = s.stats.maxCombo ∧
    (GameEngine.handleCollectible o s).stats.combo = s.stats.combo + 1 ∧
    (GameEngine.handleCollectible o s).stats.maxCombo
        = max s.stats.maxCombo (s.stats.combo + 1) ∧
    ∀ s' : EngineState,
      s'.stats.maxCombo ≤ (GameEngine.step o s').stats.maxCombo := by
  refine ⟨GameEngine.handleDamage_combo o s,
    GameEngine.handleDamage_maxCombo o s, ?_, ?_, ?_⟩
  · rw [GameEngine.handleCollectible_stats]
  · rw [GameEngine.handleCollectible_stats]
  · intro s'
    by_cases hp : s'.state = GState.playing ∧ s'.isPaused = false
    · unfold GameEngine.step
      rw [GameEngine.update_playing o s' hp.1 hp.2]
      dsimp only
      rw [GameEngine.scoreStepAt_maxCombo]
      have h9 : (GameEngine.particlesStep (GameEngine.powerupsStep o
          (GameEngine.collectiblesStep o (GameEngine.obstaclesStep o
            (GameEngine.speedStep (GameEngine.effectsStep
              (GameEngine.playerStep
                (GameEngine.frameStep s')))))))).stats.maxCombo
          = s'.stats.maxCombo := by
        rw [GameEngine.particlesStep_stats, GameEngine.powerupsStep_stats,
          GameEngine.collectiblesStep_stats, GameEngine.obstaclesStep_stats,
          GameEngine.speedStep_maxCombo, GameEngine.effectsStep_maxCombo,
          GameEngine.playerStep_stats, GameEngine.frameStep_stats]
      exact le_trans (le_of_eq h9.symm)
        (GameEngine.checkCollisions_maxCombo o _)
    · unfold GameEngine.step
      rw [GameEngine.update_noop o s' ?_]
      rcases not_and_or.mp hp with h | h
      · exact Or.inl h
      · exact Or.inr (by simpa using h)

/-- C1 witness: the claim instantiated at a concrete playing state. -/
theorem combo_reset_and_maxCombo_monotone_witness :
    steadyState.state = GState.playing ∧
    ((GameEngine.handleDamage testOracle steadyState).stats.combo = 0 ∧
     (GameEngine.handleDamage testOracle steadyState).stats.maxCombo
        = steadyState.stats.maxCombo ∧
     (GameEngine.handleCollectible testOracle steadyState).stats.combo
        = steadyState.stats.combo + 1 ∧
     (GameEngine.handleCollectible testOracle steadyState).stats.maxCombo
        = max steadyState.stats.maxCombo (steadyState.stats.combo + 1) ∧
     ∀ s' : EngineState,
       s'.stats.maxCombo ≤ (GameEngine.step testOracle s').stats.maxCombo) :=
  ⟨rfl, combo_reset_and_maxCombo_monotone testOracle steadyState rfl⟩

/-- C4: during active play, a jump or slide key delivered while the player
is jumping or sliding leaves the whole state unchanged, and a jump key with
the player running sets `velocityY` to the fixed impulse -13 and marks
`jumping`. -/
theorem jump_slide_input_guard (k : Key) (s : EngineState)
    (h1 : s.state = GState.playing) (h2 : s.isPaused = false) :
    ((s.player.jumping = true ∨ s.player.sliding = true) →
      (k = Key.arrowUp ∨ k = Key.space ∨ k = Key.arrowDown) →
      GameEngine.onKeydown k s = s) ∧
    (s.player.jumping = false → s.player.sliding = false →
      (k = Key.arrowUp ∨ k = Key.space) →
      (GameEngine.onKeydown k s).player = Player.jump s.player ∧
      (GameEngine.onKeydown k s).player.velocityY = -13 ∧
      (GameEngine.onKeydown k s).player.jumping = true) := by
  constructor
  · intro hjs hk
    rcases hk with rfl | rfl | rfl <;> rcases hjs with hj | hj <;>
      simp [GameEngine.onKeydown, h1, h2, hj]
  · intro hj hsl hk
    rcases hk with rfl | rfl <;>
      refine ⟨?_, ?_, ?_⟩ <;>
      simp [GameEngine.onKeydown, h1, h2, hj, hsl, Player.jump]

/-- C4 witness: the claim instantiated at a mid-jump state and at a
running state. -/
theorem jump_slide_input_guard_witness :
    jumpingState.state = GState.playing ∧ jumpingState.isPaused = false ∧
    jumpingState.player.jumping = true ∧
    GameEngine.onKeydown Key.arrowUp jumpingState = jumpingState ∧
    steadyState.player.jumping = false ∧ steadyState.player.sliding = false ∧
    (GameEngine.onKeydown Key.arrowUp steadyState).player.velocityY = -13 ∧
    (GameEngine.onKeydown Key.arrowUp steadyState).player.jumping = true :=
  ⟨rfl, rfl, rfl,
   (jump_slide_input_guard Key.arrowUp jumpingState rfl rfl).1 (Or.inl rfl)
     (Or.inl rfl),
   rfl, rfl,
   ((jump_slide_input_guard Key.arrowUp steadyState rfl rfl).2 rfl rfl
     (Or.inl rfl)).2.1,
   ((jump_slide_input_guard Key.arrowUp steadyState rfl rfl).2 rfl rfl
     (Or.inl rfl)).2.2⟩

/-- C6: `update()` is a no-op (state and effects) unless the session is
playing and unpaused, and otherwise executes its steps in the fixed source
order: frame-counter advance, `Player.update`, power-up effects, speed
update, the three spawn-manager updates, particle update, collision pass,
score update, with `currentSpeed` fixed after the speed update. -/
theorem update_noop_and_fixed_order (o : Oracle) (s : EngineState) :
    (s.state ≠ GState.playing ∨ s.isPaused = true →
      GameEngine.update o s = (s, noTickEvents)) ∧
    (s.state = GState.playing → s.isPaused = false →
      GameEngine.update o s =
        (let s4 := GameEngine.speedStep (GameEngine.effectsStep
            (GameEngine.playerStep (GameEngine.frameStep s)))
         let s9 := GameEngine.particlesStep (GameEngine.powerupsStep o
            (GameEngine.collectiblesStep o (GameEngine.obstaclesStep o s4)))
         let r := GameEngine.checkCollisions o s9
         (GameEngine.scoreStepAt (GameEngine.currentSpeed s4) r.1, r.2))) :=
  ⟨GameEngine.update_noop o s, GameEngine.update_playing o s⟩

/-- C6 witness: the no-op case at a paused state and the ordered case at a
playing state. -/
theorem update_noop_and_fixed_order_witness :
    (pausedState.state ≠ GState.playing ∨ pausedState.isPaused = true) ∧
    GameEngine.update testOracle pausedState = (pausedState, noTickEvents) ∧
    steadyState.state = GState.playing ∧ steadyState.isPaused = false ∧
    GameEngine.update testOracle steadyState =
      (let s4 := GameEngine.speedStep (GameEngine.effectsStep
          (GameEngine.playerStep (GameEngine.frameStep steadyState)))
       let s9 := GameEngine.particlesStep (GameEngine.powerupsStep testOracle
          (GameEngine.collectiblesStep testOracle
            (GameEngine.obstaclesStep testOracle s4)))
       let r := GameEngine.checkCollisions testOracle s9
       (GameEngine.scoreStepAt (GameEngine.currentSpeed s4) r.1, r.2)) :=
  ⟨Or.inr rfl,
   (update_noop_and_fixed_order testOracle pausedState).1 (Or.inr rfl),
   rfl, rfl,
   (update_noop_and_fixed_order testOracle steadyState).2 rfl rfl⟩

/-- C9: while the player is invincible, a tick whose AABB overlaps an
obstacle applies no damage and removes no obstacle: the obstacle branch is
the identity, and the whole collision pass leaves the obstacle list and the
life count unchanged, so the same obstacle can be matched again later. -/
theorem invincible_obstacle_branch_noop (o : Oracle) (s : EngineState)
    (hov : GameEngine.obstacleQuery s ≠ none)
    (hinv : s.player.invincible = true) :
    GameEngine.obstaclePass o s = s ∧
    (GameEngine.checkCollisions o s).2.damaged = false ∧
    (GameEngine.checkCollisions o s).1.obstacles = s.obstacles ∧
    (GameEngine.checkCollisions o s).1.stats.lives = s.stats.lives := by
  have hpass : GameEngine.obstaclePass o s = s := by
    unfold GameEngine.obstaclePass
    split
    · rw [if_pos hinv]
    · rfl
  refine ⟨hpass, ?_, ?_, ?_⟩
  · simp [GameEngine.checkCollisions, hinv]
  · rw [GameEngine.checkCollisions_fst, hpass,
      GameEngine.powerupPass_obstacles, GameEngine.collectiblePass_obstacles]
  · rw [GameEngine.checkCollisions_fst, hpass, GameEngine.powerupPass_lives,
      GameEngine.collectiblePass_lives]

-- ==================== HELPER LEMMAS: CLEAN TICKS ====================

theorem GameEngine.update_playing_eq (o : Oracle) (s : EngineState)
    (h1 : s.state = GState.playing) (h2 : s.isPaused = false) :
    GameEngine.update o s
      = (GameEngine.scoreStepAt
           (GameEngine.currentSpeed (GameEngine.midSteps s))
           (GameEngine.checkCollisions o (GameEngine.preSteps o s)).1,
         (GameEngine.checkCollisions o (GameEngine.preSteps o s)).2) := by
  unfold GameEngine.update
  rw [if_neg (by simp [h1, h2])]
  rfl

theorem GameEngine.obstaclePass_none (o : Oracle) (s : EngineState)
    (h : GameEngine.obstacleQuery s = none) :
    GameEngine.obstaclePass o s = s := by
  unfold GameEngine.obstaclePass
  rw [h]

theorem GameEngine.collectiblePass_none (o : Oracle) (s : EngineState)
    (h : GameEngine.collectibleQuery s = none) :
    GameEngine.collectiblePass o s = s := by
  unfold GameEngine.collectiblePass
  rw [h]

theorem GameEngine.powerupPass_none (o : Oracle) (s : EngineState)
    (h : GameEngine.powerupQuery s = none) :
    GameEngine.powerupPass o s = s := by
  unfold GameEngine.powerupPass
  rw [h]

theorem GameEngine.checkCollisions_none (o : Oracle) (s : EngineState)
    (hq1 : GameEngine.obstacleQuery s = none)
    (hq2 : GameEngine.collectibleQuery s = none)
    (hq3 : GameEngine.powerupQuery s = none) :
    GameEngine.checkCollisions o s = (s, noTickEvents) := by
  have hp1 := GameEngine.obstaclePass_none o s hq1
  have hp2 := GameEngine.collectiblePass_none o s hq2
  have hp3 := GameEngine.powerupPass_none o s hq3
  unfold GameEngine.checkCollisions
  dsimp only
  rw [hp1, hp2, hp3, hq1, hq2, hq3]
  rfl

-- Field values of the composed pre-collision steps.

theorem GameEngine.speedStep_state (s : EngineState) :
    (GameEngine.speedStep s).state = s.state := by
  unfold GameEngine.speedStep
  split <;> rfl

theorem GameEngine.speedStep_isPaused (s : EngineState) :
    (GameEngine.speedStep s).isPaused = s.isPaused := by
  unfold GameEngine.speedStep
  split <;> rfl

theorem GameEngine.speedStep_activePowerup (s : EngineState) :
    (GameEngine.speedStep s).activePowerup = s.activePowerup := by
  unfold GameEngine.speedStep
  split <;> rfl

theorem GameEngine.speedStep_player (s : EngineState) :
    (GameEngine.speedStep s).player = s.player := by
  unfold GameEngine.speedStep
  split <;> rfl

theorem GameEngine.speedStep_obstacles (s : EngineState) :
    (GameEngine.speedStep s).obstacles = s.obstacles := by
  unfold GameEngine.speedStep
  split <;> rfl

theorem GameEngine.speedStep_collectibles (s : EngineState) :
    (GameEngine.speedStep s).collectibles = s.collectibles := by
  unfold GameEngine.speedStep
  split <;> rfl

theorem GameEngine.speedStep_powerups (s : EngineState) :
    (GameEngine.speedStep s).powerups = s.powerups := by
  unfold GameEngine.speedStep
  split <;> rfl

theorem GameEngine.speedStep_score (s : EngineState) :
    (GameEngine.speedStep s).stats.score = s.stats.score := by
  unfold GameEngine.speedStep
  split <;> rfl

theorem GameEngine.speedStep_speedMultiplier (s : EngineState) :
    (GameEngine.speedStep s).stats.speedMultiplier
      = s.stats.speedMultiplier := by
  unfold GameEngine.speedStep
  split <;> rfl

theorem GameEngine.effectsStep_score (s : EngineState) :
    (GameEngine.effectsStep s).stats.score = s.stats.score := by
  unfold GameEngine.effectsStep PowerupManager.updateEffects
  dsimp only
  split <;> rfl

theorem GameEngine.effectsStep_gameSpeed (s : EngineState) :
    (GameEngine.effectsStep s).stats.gameSpeed = s.stats.gameSpeed := by
  unfold GameEngine.effectsStep PowerupManager.updateEffects
  dsimp only
  split <;> rfl

theorem GameEngine.effectsStep_speedMultiplier (s : EngineState) :
    (GameEngine.effectsStep s).stats.speedMultiplier
      = (if s.activePowerup = some "slowmo" then (1 : ℚ)/2 else 1) := by
  rw [GameEngine.effectsStep_stats]

unseal Rat.add Rat.mul Rat.sub Rat.inv in
theorem min_gameSpeed_cap : min ((12 : ℚ) + 3/10) 12 = 12 := by decide

theorem GameEngine.speedStep_gameSpeed_cap (s : EngineState)
    (h : s.stats.gameSpeed = 12) :
    (GameEngine.speedStep s).stats.gameSpeed = 12 := by
  unfold GameEngine.speedStep
  split
  · rw [h]
    exact min_gameSpeed_cap
  · exact h

theorem GameEngine.midSteps_state (s : EngineState) :
    (GameEngine.midSteps s).state = s.state := by
  unfold GameEngine.midSteps
  rw [GameEngine.speedStep_state]
  rfl

theorem GameEngine.midSteps_isPaused (s : EngineState) :
    (GameEngine.midSteps s).isPaused = s.isPaused := by
  unfold GameEngine.midSteps
  rw [GameEngine.speedStep_isPaused]
  rfl

theorem GameEngine.midSteps_activePowerup (s : EngineState) :
    (GameEngine.midSteps s).activePowerup = s.activePowerup := by
  unfold GameEngine.midSteps
  rw [GameEngine.speedStep_activePowerup]
  rfl

theorem GameEngine.midSteps_score (s : EngineState) :
    (GameEngine.midSteps s).stats.score = s.stats.score := by
  unfold GameEngine.midSteps
  rw [GameEngine.speedStep_score, GameEngine.effectsStep_score]
  rfl

theorem GameEngine.midSteps_gameSpeed_cap (s : EngineState)
    (h : s.stats.gameSpeed = 12) :
    (GameEngine.midSteps s).stats.gameSpeed = 12 := by
  unfold GameEngine.midSteps
  apply GameEngine.speedStep_gameSpeed_cap
  rw [GameEngine.effectsStep_gameSpeed]
  exact h

theorem GameEngine.midSteps_speedMultiplier (s : EngineState) :
    (GameEngine.midSteps s).stats.speedMultiplier
      = (if s.activePowerup = some "slowmo" then (1 : ℚ)/2 else 1) := by
  unfold GameEngine.midSteps
  rw [GameEngine.speedStep_speedMultiplier, GameEngine.effectsStep_speedMultiplier]
  rfl

theorem GameEngine.midSteps_player (s : EngineState) :
    (GameEngine.midSteps s).player
      = (if s.activePowerup = some "invincibility" then
          { Player.update s.player with invincible := true }
         else Player.update s.player) := by
  unfold GameEngine.midSteps
  rw [GameEngine.speedStep_player, GameEngine.effectsStep_player]
  rfl

theorem GameEngine.midSteps_obstacles (s : EngineState) :
    (GameEngine.midSteps s).obstacles = s.obstacles := by
  unfold GameEngine.midSteps
  rw [GameEngine.speedStep_obstacles]
  rfl

theorem GameEngine.midSteps_collectibles (s : EngineState) :
    (GameEngine.midSteps s).collectibles = s.collectibles := by
  unfold GameEngine.midSteps
  rw [GameEngine.speedStep_collectibles]
  rfl

theorem GameEngine.midSteps_powerups (s : EngineState) :
    (GameEngine.midSteps s).powerups = s.powerups := by
  unfold GameEngine.midSteps
  rw [GameEngine.speedStep_powerups]
  rfl

theorem Player.update_grounded (p : Player) (hy : p.y = 380)
    (hv : p.velocityY = 0) (hs : p.sliding = false) :
    (Player.update p).y = 380 ∧ (Player.update p).velocityY = 0 ∧
    (Player.update p).sliding = false := by
  unfold Player.update
  simp only [hs, Bool.false_eq_true, if_false, hv, hy]
  rw [if_pos (by norm_num)]
  exact ⟨rfl, rfl, rfl⟩

theorem ObstacleManager.isColliding_false_of_below (r1 r2 : Rect)
    (h : r2.y + r2.height ≤ r1.y) :
    ObstacleManager.isColliding r1 r2 = false := by
  unfold ObstacleManager.isColliding
  rw [decide_eq_false (not_lt.mpr h)]
  simp

theorem GameEngine.obstacleQuery_none_of_below (s : EngineState)
    (hy : s.player.y = 380)
    (h : ∀ ob ∈ s.obstacles, ob.y + ob.height ≤ 380) :
    GameEngine.obstacleQuery s = none := by
  unfold GameEngine.obstacleQuery ObstacleManager.checkCollision
  rw [List.find?_eq_none]
  intro ob hob
  rw [ObstacleManager.isColliding_false_of_below]
  · simp
  · show ob.y + ob.height ≤ s.player.y
    rw [hy]
    exact h ob hob

theorem GameEngine.collectibleQuery_none_of_below (s : EngineState)
    (hy : s.player.y = 380)
    (h : ∀ c ∈ s.collectibles, c.y + c.height ≤ 380) :
    GameEngine.collectibleQuery s = none := by
  unfold GameEngine.collectibleQuery CollectibleManager.checkCollision
  rw [List.find?_eq_none]
  intro c hc
  have h3 : decide ((Player.getBounds s.player).y < c.y + c.height) = false := by
    apply decide_eq_false
    apply not_lt.mpr
    show c.y + c.height ≤ s.player.y
    rw [hy]
    exact h c hc
  simp [h3]

theorem GameEngine.powerupQuery_none_of_empty (s : EngineState)
    (h : s.powerups = []) : GameEngine.powerupQuery s = none := by
  unfold GameEngine.powerupQuery PowerupManager.checkCollision
  rw [h]
  rfl

theorem SafeState.queries {t : EngineState} (ht : SafeState t) :
    GameEngine.obstacleQuery t = none ∧
    GameEngine.collectibleQuery t = none ∧
    GameEngine.powerupQuery t = none :=
  ⟨GameEngine.obstacleQuery_none_of_below t ht.2.2.1 ht.2.2.2.2.2.1,
   GameEngine.collectibleQuery_none_of_below t ht.2.2.1 ht.2.2.2.2.2.2.1,
   GameEngine.powerupQuery_none_of_empty t ht.2.2.2.2.2.2.2⟩

theorem ObstacleManager.update_safe (speed : ℚ) (fc : ℕ) (choice : Fin 3)
    (hc : choice = 1) (obs : List Obstacle)
    (h : ∀ ob ∈ obs, ob.y + ob.height ≤ 380) :
    ∀ ob ∈ ObstacleManager.update speed fc choice obs,
      ob.y + ob.height ≤ 380 := by
  subst hc
  intro ob hob
  unfold ObstacleManager.update at hob
  have hmov : ∀ ob2 ∈ ObstacleManager.moveAndCull speed obs,
      ob2.y + ob2.height ≤ 380 := by
    intro ob2 hob2
    unfold ObstacleManager.moveAndCull at hob2
    simp only [List.mem_filter, List.mem_map] at hob2
    obtain ⟨⟨o0, ho0, rfl⟩, _⟩ := hob2
    exact h o0 ho0
  split at hob
  · rcases List.mem_append.mp hob with h1 | h1
    · exact hmov ob h1
    · rw [List.mem_singleton.mp h1]
      norm_num [ObstacleManager.spawn, ObstacleManager.types]
  · exact hmov ob hob

theorem CollectibleManager.update_rows_safe (jm : JsMath) (speed : ℚ) (fc : ℕ)
    (choice : Fin 3) (hc : choice = 0) (phase : ℚ) (cols : List Collectible)
    (h : ∀ c ∈ cols, c.y + c.height ≤ 380) :
    ∀ c ∈ CollectibleManager.update jm speed fc choice phase cols,
      c.y + c.height ≤ 380 := by
  subst hc
  intro c hc2
  unfold CollectibleManager.update at hc2
  dsimp only at hc2
  split at hc2
  · rcases List.mem_append.mp hc2 with h1 | h1
    · simp only [List.mem_filter, List.mem_map] at h1
      obtain ⟨⟨c0, hc0, rfl⟩, _⟩ := h1
      exact h c0 hc0
    · rw [List.mem_singleton.mp h1]
      norm_num [CollectibleManager.spawn]
  · simp only [List.mem_filter, List.mem_map] at hc2
    obtain ⟨⟨c0, hc0, rfl⟩, _⟩ := hc2
    exact h c0 hc0

theorem PowerupManager.update_empty (jm : JsMath) (speed : ℚ) (fc : ℕ)
    (choice : Fin 3) (phase : ℚ) :
    PowerupManager.update jm speed fc false choice phase [] = [] := by
  unfold PowerupManager.update
  simp

theorem GameEngine.obstaclesStep_player (o : Oracle) (s : EngineState) :
    (GameEngine.obstaclesStep o s).player = s.player := rfl

theorem GameEngine.collectiblesStep_player (o : Oracle) (s : EngineState) :
    (GameEngine.collectiblesStep o s).player = s.player := rfl

theorem GameEngine.powerupsStep_player (o : Oracle) (s : EngineState) :
    (GameEngine.powerupsStep o s).player = s.player := rfl

theorem GameEngine.particlesStep_player (s : EngineState) :
    (GameEngine.particlesStep s).player = s.player := rfl

theorem GameEngine.obstaclesStep_state (o : Oracle) (s : EngineState) :
    (GameEngine.obstaclesStep o s).state = s.state := rfl

theorem GameEngine.collectiblesStep_state (o : Oracle) (s : EngineState) :
    (GameEngine.collectiblesStep o s).state = s.state := rfl

theorem GameEngine.powerupsStep_state (o : Oracle) (s : EngineState) :
    (GameEngine.powerupsStep o s).state = s.state := rfl

theorem GameEngine.particlesStep_state (s : EngineState) :
    (GameEngine.particlesStep s).state = s.state := rfl

theorem GameEngine.obstaclesStep_isPaused (o : Oracle) (s : EngineState) :
    (GameEngine.obstaclesStep o s).isPaused = s.isPaused := rfl

theorem GameEngine.collectiblesStep_isPaused (o : Oracle) (s : EngineState) :
    (GameEngine.collectiblesStep o s).isPaused = s.isPaused := rfl

theorem GameEngine.powerupsStep_isPaused (o : Oracle) (s : EngineState) :
    (GameEngine.powerupsStep o s).isPaused = s.isPaused := rfl

theorem GameEngine.particlesStep_isPaused (s : EngineState) :
    (GameEngine.particlesStep s).isPaused = s.isPaused := rfl

theorem GameEngine.obstaclesStep_activePowerup (o : Oracle) (s : EngineState) :
    (GameEngine.obstaclesStep o s).activePowerup = s.activePowerup := rfl

theorem GameEngine.collectiblesStep_activePowerup (o : Oracle)
    (s : EngineState) :
    (GameEngine.collectiblesStep o s).activePowerup = s.activePowerup := rfl

theorem GameEngine.powerupsStep_activePowerup (o : Oracle) (s : EngineState) :
    (GameEngine.powerupsStep o s).activePowerup = s.activePowerup := rfl

theorem GameEngine.particlesStep_activePowerup (s : EngineState) :
    (GameEngine.particlesStep s).activePowerup = s.activePowerup := rfl

theorem GameEngine.obstaclesStep_frameCount (o : Oracle) (s : EngineState) :
    (GameEngine.obstaclesStep o s).frameCount = s.frameCount := rfl

theorem GameEngine.collectiblesStep_frameCount (o : Oracle) (s : EngineState) :
    (GameEngine.collectiblesStep o s).frameCount = s.frameCount := rfl

theorem GameEngine.obstaclesStep_collectibles (o : Oracle) (s : EngineState) :
    (GameEngine.obstaclesStep o s).collectibles = s.collectibles := rfl

theorem GameEngine.powerupsStep_collectibles (o : Oracle) (s : EngineState) :
    (GameEngine.powerupsStep o s).collectibles = s.collectibles := rfl

theorem GameEngine.particlesStep_collectibles (s : EngineState) :
    (GameEngine.particlesStep s).collectibles = s.collectibles := rfl

theorem GameEngine.collectiblesStep_obstacles (o : Oracle) (s : EngineState) :
    (GameEngine.collectiblesStep o s).obstacles = s.obstacles := rfl

theorem GameEngine.powerupsStep_obstacles (o : Oracle) (s : EngineState) :
    (GameEngine.powerupsStep o s).obstacles = s.obstacles := rfl

theorem GameEngine.particlesStep_obstacles (s : EngineState) :
    (GameEngine.particlesStep s).obstacles = s.obstacles := rfl

theorem GameEngine.obstaclesStep_powerups (o : Oracle) (s : EngineState) :
    (GameEngine.obstaclesStep o s).powerups = s.powerups := rfl

theorem GameEngine.collectiblesStep_powerups (o : Oracle) (s : EngineState) :
    (GameEngine.collectiblesStep o s).powerups = s.powerups := rfl

theorem GameEngine.particlesStep_powerups (s : EngineState) :
    (GameEngine.particlesStep s).powerups = s.powerups := rfl

theorem GameEngine.preSteps_player (o : Oracle) (s : EngineState) :
    (GameEngine.preSteps o s).player = (GameEngine.midSteps s).player := by
  unfold GameEngine.preSteps
  rw [GameEngine.particlesStep_player, GameEngine.powerupsStep_player,
    GameEngine.collectiblesStep_player, GameEngine.obstaclesStep_player]

theorem GameEngine.preSteps_state (o : Oracle) (s : EngineState) :
    (GameEngine.preSteps o s).state = (GameEngine.midSteps s).state := by
  unfold GameEngine.preSteps
  rw [GameEngine.particlesStep_state, GameEngine.powerupsStep_state,
    GameEngine.collectiblesStep_state, GameEngine.obstaclesStep_state]

theorem GameEngine.preSteps_isPaused (o : Oracle) (s : EngineState) :
    (GameEngine.preSteps o s).isPaused = (GameEngine.midSteps s).isPaused := by
  unfold GameEngine.preSteps
  rw [GameEngine.particlesStep_isPaused, GameEngine.powerupsStep_isPaused,
    GameEngine.collectiblesStep_isPaused, GameEngine.obstaclesStep_isPaused]

theorem GameEngine.preSteps_activePowerup (o : Oracle) (s : EngineState) :
    (GameEngine.preSteps o s).activePowerup
      = (GameEngine.midSteps s).activePowerup := by
  unfold GameEngine.preSteps
  rw [GameEngine.particlesStep_activePowerup,
    GameEngine.powerupsStep_activePowerup,
    GameEngine.collectiblesStep_activePowerup,
    GameEngine.obstaclesStep_activePowerup]

theorem GameEngine.preSteps_stats (o : Oracle) (s : EngineState) :
    (GameEngine.preSteps o s).stats = (GameEngine.midSteps s).stats := by
  unfold GameEngine.preSteps
  rw [GameEngine.particlesStep_stats, GameEngine.powerupsStep_stats,
    GameEngine.collectiblesStep_stats, GameEngine.obstaclesStep_stats]

theorem GameEngine.preSteps_obstacles (o : Oracle) (s : EngineState) :
    (GameEngine.preSteps o s).obstacles
      = ObstacleManager.update
          ((GameEngine.midSteps s).stats.gameSpeed *
            (GameEngine.midSteps s).stats.speedMultiplier)
          (GameEngine.midSteps s).frameCount
          (o.obsType (GameEngine.midSteps s).frameCount)
          (GameEngine.midSteps s).obstacles := by
  unfold GameEngine.preSteps
  rw [GameEngine.particlesStep_obstacles, GameEngine.powerupsStep_obstacles,
    GameEngine.collectiblesStep_obstacles]
  rfl

theorem GameEngine.preSteps_collectibles (o : Oracle) (s : EngineState) :
    (GameEngine.preSteps o s).collectibles
      = CollectibleManager.update o.jm
          ((GameEngine.midSteps s).stats.gameSpeed *
            (GameEngine.midSteps s).stats.speedMultiplier)
          (GameEngine.midSteps s).frameCount
          (o.colY (GameEngine.midSteps s).frameCount)
          (o.colPhase (GameEngine.midSteps s).frameCount)
          (GameEngine.midSteps s).collectibles := by
  unfold GameEngine.preSteps
  rw [GameEngine.particlesStep_collectibles,
    GameEngine.powerupsStep_collectibles]
  unfold GameEngine.collectiblesStep
  dsimp only
  rw [GameEngine.obstaclesStep_stats, GameEngine.obstaclesStep_frameCount,
    GameEngine.obstaclesStep_collectibles]

theorem GameEngine.preSteps_powerups (o : Oracle) (s : EngineState) :
    (GameEngine.preSteps o s).powerups
      = PowerupManager.update o.jm
          ((GameEngine.midSteps s).stats.gameSpeed *
            (GameEngine.midSteps s).stats.speedMultiplier)
          (GameEngine.midSteps s).frameCount
          (o.puGate (GameEngine.midSteps s).frameCount)
          (o.puType (GameEngine.midSteps s).frameCount)
          (o.puPhase (GameEngine.midSteps s).frameCount)
          (GameEngine.midSteps s).powerups := by
  unfold GameEngine.preSteps
  rw [GameEngine.particlesStep_powerups]
  unfold GameEngine.powerupsStep
  dsimp only
  rw [GameEngine.collectiblesStep_stats, GameEngine.obstaclesStep_stats,
    GameEngine.collectiblesStep_frameCount,
    GameEngine.obstaclesStep_frameCount,
    GameEngine.collectiblesStep_powerups,
    GameEngine.obstaclesStep_powerups]

theorem GameEngine.preSteps_safe (s : EngineState) (hs : SafeState s) :
    SafeState (GameEngine.preSteps testOracle s) := by
  obtain ⟨h1, h2, hy, hv, hsl, hob, hcol, hpu⟩ := hs
  have hgr := Player.update_grounded s.player hy hv hsl
  have hply : (GameEngine.midSteps s).player.y = 380 ∧
      (GameEngine.midSteps s).player.velocityY = 0 ∧
      (GameEngine.midSteps s).player.sliding = false := by
    rw [GameEngine.midSteps_player]
    split
    · exact ⟨hgr.1, hgr.2.1, hgr.2.2⟩
    · exact hgr
  refine ⟨?_, ?_, ?_, ?_, ?_, ?_, ?_, ?_⟩
  · rw [GameEngine.preSteps_state, GameEngine.midSteps_state]
    exact h1
  · rw [GameEngine.preSteps_isPaused, GameEngine.midSteps_isPaused]
    exact h2
  · rw [GameEngine.preSteps_player]
    exact hply.1
  · rw [GameEngine.preSteps_player]
    exact hply.2.1
  · rw [GameEngine.preSteps_player]
    exact hply.2.2
  · simp only [GameEngine.preSteps_obstacles, GameEngine.midSteps_obstacles]
    exact ObstacleManager.update_safe _ _ _ rfl s.obstacles hob
  · simp only [GameEngine.preSteps_collectibles,
      GameEngine.midSteps_collectibles]
    exact CollectibleManager.update_rows_safe _ _ _ _ rfl _ s.collectibles hcol
  · rw [GameEngine.preSteps_powerups, GameEngine.midSteps_powerups, hpu]
    exact PowerupManager.update_empty _ _ _ _ _

theorem GameEngine.scoreStepAt_safe (cs : ℚ) (t : EngineState)
    (ht : SafeState t) : SafeState (GameEngine.scoreStepAt cs t) :=
  ⟨ht.1, ht.2.1, ht.2.2.1, ht.2.2.2.1, ht.2.2.2.2.1, ht.2.2.2.2.2.1,
   ht.2.2.2.2.2.2.1, ht.2.2.2.2.2.2.2⟩

theorem GameEngine.safe_step (s : EngineState) (hs : SafeState s) :
    SafeState (GameEngine.step testOracle s) ∧
    (GameEngine.update testOracle s).2 = noTickEvents := by
  have hps := GameEngine.preSteps_safe s hs
  have hq := hps.queries
  have hcc := GameEngine.checkCollisions_none testOracle _ hq.1 hq.2.1 hq.2.2
  have hupd := GameEngine.update_playing_eq testOracle s hs.1 hs.2.1
  constructor
  · unfold GameEngine.step
    rw [hupd]
    dsimp only
    rw [hcc]
    exact GameEngine.scoreStepAt_safe _ _ hps
  · rw [hupd]
    dsimp only
    rw [hcc]

theorem GameEngine.noCollisionsFor_safe :
    ∀ (n : ℕ) (s : EngineState), SafeState s →
      GameEngine.noCollisionsFor testOracle s n = true := by
  intro n
  induction n with
  | zero => intro s _; rfl
  | succ n ih =>
    intro s hs
    have hst := GameEngine.safe_step s hs
    unfold GameEngine.noCollisionsFor
    dsimp only
    rw [hst.2]
    show (!noTickEvents.obsHit && !noTickEvents.colHit && !noTickEvents.puHit &&
      GameEngine.noCollisionsFor testOracle (GameEngine.update testOracle s).1 n)
      = true
    have hrec := ih (GameEngine.update testOracle s).1 hst.1
    rw [hrec]
    rfl

-- ==================== HELPER LEMMAS: CLEAN RUNS ====================

theorem optEqNoneOfFalse {α : Type} {x : Option α} (h : x.isSome = false) :
    x = none := by
  cases x with
  | none => rfl
  | some v => exact absurd h (by simp)

theorem GameEngine.checkCollisions_obsHit (o : Oracle) (t : EngineState) :
    (GameEngine.checkCollisions o t).2.obsHit
      = (GameEngine.obstacleQuery t).isSome := rfl

theorem GameEngine.checkCollisions_colHit (o : Oracle) (t : EngineState) :
    (GameEngine.checkCollisions o t).2.colHit
      = (GameEngine.collectibleQuery (GameEngine.obstaclePass o t)).isSome :=
  rfl

theorem GameEngine.checkCollisions_puHit (o : Oracle) (t : EngineState) :
    (GameEngine.checkCollisions o t).2.puHit
      = (GameEngine.powerupQuery (GameEngine.collectiblePass o
          (GameEngine.obstaclePass o t))).isSome := rfl

theorem GameEngine.scoreStepAt_state (cs : ℚ) (t : EngineState) :
    (GameEngine.scoreStepAt cs t).state = t.state := rfl

theorem GameEngine.scoreStepAt_isPaused (cs : ℚ) (t : EngineState) :
    (GameEngine.scoreStepAt cs t).isPaused = t.isPaused := rfl

theorem GameEngine.scoreStepAt_activePowerup (cs : ℚ) (t : EngineState) :
    (GameEngine.scoreStepAt cs t).activePowerup = t.activePowerup := rfl

theorem GameEngine.scoreStepAt_player (cs : ℚ) (t : EngineState) :
    (GameEngine.scoreStepAt cs t).player = t.player := rfl

theorem GameEngine.scoreStepAt_gameSpeed (cs : ℚ) (t : EngineState) :
    (GameEngine.scoreStepAt cs t).stats.gameSpeed = t.stats.gameSpeed := rfl

theorem GameEngine.scoreStepAt_score (cs : ℚ) (t : EngineState) :
    (GameEngine.scoreStepAt cs t).stats.score
      = t.stats.score + Rat.floor (cs / 10) := rfl

theorem GameEngine.step_clean (o : Oracle) (s : EngineState)
    (h1 : s.state = GState.playing) (h2 : s.isPaused = false)
    (hobs : (GameEngine.update o s).2.obsHit = false)
    (hcol : (GameEngine.update o s).2.colHit = false)
    (hpu : (GameEngine.update o s).2.puHit = false) :
    (GameEngine.step o s).state = GState.playing ∧
    (GameEngine.step o s).isPaused = false ∧
    (GameEngine.step o s).activePowerup = s.activePowerup ∧
    (GameEngine.step o s).stats.gameSpeed
      = (GameEngine.midSteps s).stats.gameSpeed ∧
    (GameEngine.step o s).stats.score
      = s.stats.score +
        Rat.floor ((GameEngine.midSteps s).stats.gameSpeed *
          (if s.activePowerup = some "slowmo" then (1 : ℚ)/2 else 1) / 10) := by
  have hupd := GameEngine.update_playing_eq o s h1 h2
  have hse : (GameEngine.update o s).2
      = (GameEngine.checkCollisions o (GameEngine.preSteps o s)).2 := by
    rw [hupd]
  rw [hse, GameEngine.checkCollisions_obsHit] at hobs
  rw [hse, GameEngine.checkCollisions_colHit] at hcol
  rw [hse, GameEngine.checkCollisions_puHit] at hpu
  have hq1 : GameEngine.obstacleQuery (GameEngine.preSteps o s) = none :=
    optEqNoneOfFalse hobs
  rw [GameEngine.obstaclePass_none o _ hq1] at hcol hpu
  have hq2 : GameEngine.collectibleQuery (GameEngine.preSteps o s) = none :=
    optEqNoneOfFalse hcol
  rw [GameEngine.collectiblePass_none o _ hq2] at hpu
  have hq3 : GameEngine.powerupQuery (GameEngine.preSteps o s) = none :=
    optEqNoneOfFalse hpu
  have hcc := GameEngine.checkCollisions_none o _ hq1 hq2 hq3
  have hstep : GameEngine.step o s
      = GameEngine.scoreStepAt
          (GameEngine.currentSpeed (GameEngine.midSteps s))
          (GameEngine.preSteps o s) := by
    unfold GameEngine.step
    rw [hupd]
    dsimp only
    rw [hcc]
  refine ⟨?_, ?_, ?_, ?_, ?_⟩
  · rw [hstep, GameEngine.scoreStepAt_state, GameEngine.preSteps_state,
      GameEngine.midSteps_state]
    exact h1
  · rw [hstep, GameEngine.scoreStepAt_isPaused, GameEngine.preSteps_isPaused,
      GameEngine.midSteps_isPaused]
    exact h2
  · rw [hstep, GameEngine.scoreStepAt_activePowerup,
      GameEngine.preSteps_activePowerup, GameEngine.midSteps_activePowerup]
  · rw [hstep, GameEngine.scoreStepAt_gameSpeed, GameEngine.preSteps_stats]
  · rw [hstep, GameEngine.scoreStepAt_score, GameEngine.preSteps_stats,
      GameEngine.midSteps_score]
    unfold GameEngine.currentSpeed
    rw [GameEngine.midSteps_speedMultiplier]

theorem GameEngine.runTicks_succ (o : Oracle) (n : ℕ) (s : EngineState) :
    GameEngine.runTicks o (n + 1) s
      = GameEngine.runTicks o n (GameEngine.step o s) := by
  cases s
  rfl

theorem GameEngine.noCollisionsFor_succ (o : Oracle) (s : EngineState)
    (n : ℕ) (h : GameEngine.noCollisionsFor o s (n + 1) = true) :
    (GameEngine.update o s).2.obsHit = false ∧
    (GameEngine.update o s).2.colHit = false ∧
    (GameEngine.update o s).2.puHit = false ∧
    GameEngine.noCollisionsFor o (GameEngine.step o s) n = true := by
  unfold GameEngine.noCollisionsFor at h
  dsimp only at h
  simp only [Bool.and_eq_true, Bool.not_eq_true'] at h
  exact ⟨h.1.1.1, h.1.1.2, h.1.2, h.2⟩

unseal Rat.mul Rat.add Rat.sub Rat.inv in
theorem floor_full_speed : Rat.floor ((12 : ℚ) * 1 / 10) = 1 := by decide

unseal Rat.mul Rat.add Rat.sub Rat.inv in
theorem floor_slowmo_speed :
    Rat.floor ((12 : ℚ) * (1 / 2) / 10) = 0 := by decide

theorem GameEngine.runTicks_clean (o : Oracle) :
    ∀ (n : ℕ) (s : EngineState),
      s.state = GState.playing → s.isPaused = false →
      s.stats.gameSpeed = 12 → s.activePowerup ≠ some "slowmo" →
      GameEngine.noCollisionsFor o s n = true →
      (GameEngine.runTicks o n s).state = GState.playing ∧
      (GameEngine.runTicks o n s).isPaused = false ∧
      (GameEngine.runTicks o n s).stats.gameSpeed = 12 ∧
      (GameEngine.runTicks o n s).activePowerup = s.activePowerup ∧
      (GameEngine.runTicks o n s).stats.score
        = s.stats.score + (n : ℤ) := by
  intro n
  induction n with
  | zero =>
    intro s h1 h2 hg _ _
    exact ⟨h1, h2, hg, rfl,
      by show s.stats.score = s.stats.score + ((0 : ℕ) : ℤ); simp⟩
  | succ n ih =>
    intro s h1 h2 hg hap hnc
    obtain ⟨e1, e2, e3, hrest⟩ := GameEngine.noCollisionsFor_succ o s n hnc
    have hcl := GameEngine.step_clean o s h1 h2 e1 e2 e3
    have hg2 : (GameEngine.step o s).stats.gameSpeed = 12 := by
      rw [hcl.2.2.2.1]
      exact GameEngine.midSteps_gameSpeed_cap s hg
    have hap2 : (GameEngine.step o s).activePowerup ≠ some "slowmo" := by
      rw [hcl.2.2.1]
      exact hap
    have hsc : (GameEngine.step o s).stats.score = s.stats.score + 1 := by
      rw [hcl.2.2.2.2, GameEngine.midSteps_gameSpeed_cap s hg, if_neg hap,
        floor_full_speed]
    have hmain := ih (GameEngine.step o s) hcl.1 hcl.2.1 hg2 hap2 hrest
    rw [GameEngine.runTicks_succ]
    refine ⟨hmain.1, hmain.2.1, hmain.2.2.1, ?_, ?_⟩
    · rw [hmain.2.2.2.1]
      exact hcl.2.2.1
    · rw [hmain.2.2.2.2, hsc]
      push_cast
      ring

theorem GameEngine.runTicks_slowmo (o : Oracle) :
    ∀ (n : ℕ) (s : EngineState),
      s.state = GState.playing → s.isPaused = false →
      s.stats.gameSpeed = 12 → s.activePowerup = some "slowmo" →
      GameEngine.noCollisionsFor o s n = true →
      (GameEngine.runTicks o n s).activePowerup = some "slowmo" ∧
      (GameEngine.runTicks o n s).stats.score = s.stats.score := by
  intro n
  induction n with
  | zero =>
    intro s _ _ _ hap _
    exact ⟨hap, rfl⟩
  | succ n ih =>
    intro s h1 h2 hg hap hnc
    obtain ⟨e1, e2, e3, hrest⟩ := GameEngine.noCollisionsFor_succ o s n hnc
    have hcl := GameEngine.step_clean o s h1 h2 e1 e2 e3
    have hg2 : (GameEngine.step o s).stats.gameSpeed = 12 := by
      rw [hcl.2.2.2.1]
      exact GameEngine.midSteps_gameSpeed_cap s hg
    have hap2 : (GameEngine.step o s).activePowerup = some "slowmo" := by
      rw [hcl.2.2.1]
      exact hap
    have hsc : (GameEngine.step o s).stats.score = s.stats.score := by
      rw [hcl.2.2.2.2, GameEngine.midSteps_gameSpeed_cap s hg, if_pos hap,
        floor_slowmo_speed, add_zero]
    have hmain := ih (GameEngine.step o s) hcl.1 hcl.2.1 hg2 hap2 hrest
    rw [GameEngine.runTicks_succ]
    exact ⟨hmain.1, by rw [hmain.2, hsc]⟩

theorem steadySafe : SafeState steadyState := by
  refine ⟨rfl, rfl, rfl, rfl, rfl, ?_, ?_, rfl⟩
  · intro x hx
    exact absurd hx (List.not_mem_nil x)
  · intro x hx
    exact absurd hx (List.not_mem_nil x)

theorem slowmoSafe : SafeState slowmoState := by
  refine ⟨rfl, rfl, rfl, rfl, rfl, ?_, ?_, rfl⟩
  · intro x hx
    exact absurd hx (List.not_mem_nil x)
  · intro x hx
    exact absurd hx (List.not_mem_nil x)

/-- C5 (corrected): from any playing, unpaused state with `gameSpeed = 12`
and `speedMultiplier = 1` whose active power-up is not the slow-motion one,
500 consecutive collision-free ticks add exactly 500 to the score
(`floor(12/10) = 1` per tick) and leave `gameSpeed` at the cap 12.  The
slow-motion hypothesis is necessary: `speedMultiplier` is recomputed from
`activePowerup` at the start of every tick, so a state satisfying all the
original hypotheses but carrying an active `"slowmo"` gains 0 per tick. -/
theorem score_after_500_clean_ticks (o : Oracle) (s : EngineState)
    (h1 : s.state = GState.playing) (h2 : s.isPaused = false)
    (hg : s.stats.gameSpeed = 12) (hm : s.stats.speedMultiplier = 1)
    (hap : s.activePowerup ≠ some "slowmo")
    (hnc : GameEngine.noCollisionsFor o s 500 = true) :
    (GameEngine.runTicks o 500 s).stats.score = s.stats.score + 500 ∧
    (GameEngine.runTicks o 500 s).stats.gameSpeed = 12 := by
  have h := GameEngine.runTicks_clean o 500 s h1 h2 hg hap hnc
  refine ⟨?_, h.2.2.1⟩
  rw [h.2.2.2.2]
  norm_num

/-- C5 witness: the clean 500-tick run from the concrete steady state under
the concrete test oracle. -/
theorem score_after_500_clean_ticks_witness :
    steadyState.state = GState.playing ∧ steadyState.isPaused = false ∧
    steadyState.stats.gameSpeed = 12 ∧
    steadyState.stats.speedMultiplier = 1 ∧
    steadyState.activePowerup ≠ some "slowmo" ∧
    GameEngine.noCollisionsFor testOracle steadyState 500 = true ∧
    ((GameEngine.runTicks testOracle 500 steadyState).stats.score
        = steadyState.stats.score + 500 ∧
     (GameEngine.runTicks testOracle 500 steadyState).stats.gameSpeed
        = 12) :=
  have hnc : GameEngine.noCollisionsFor testOracle steadyState 500 = true :=
    GameEngine.noCollisionsFor_safe 500 steadyState steadySafe
  ⟨rfl, rfl, rfl, rfl, by decide, hnc,
   score_after_500_clean_ticks testOracle steadyState rfl rfl rfl rfl
     (by decide) hnc⟩

/-- C5 counterexample to the original claim: `slowmoState` satisfies every
original hypothesis (playing, unpaused, `gameSpeed = 12`,
`speedMultiplier = 1`, 500 collision-free ticks) yet its score does not
grow by 500 — the still-active slow-motion power-up halves `currentSpeed`
to 6 at the start of every tick, so each tick adds `floor(6/10) = 0`. -/
theorem slowmo_active_breaks_claimed_score :
    slowmoState.state = GState.playing ∧ slowmoState.isPaused = false ∧
    slowmoState.stats.gameSpeed = 12 ∧
    slowmoState.stats.speedMultiplier = 1 ∧
    GameEngine.noCollisionsFor testOracle slowmoState 500 = true ∧
    (GameEngine.runTicks testOracle 500 slowmoState).stats.score
      ≠ slowmoState.stats.score + 500 := by
  have hnc : GameEngine.noCollisionsFor testOracle slowmoState 500 = true :=
    GameEngine.noCollisionsFor_safe 500 slowmoState slowmoSafe
  have h := GameEngine.runTicks_slowmo testOracle 500 slowmoState rfl rfl rfl
    rfl hnc
  refine ⟨rfl, rfl, rfl, rfl, hnc, ?_⟩
  rw [h.2]
  omega

unseal Rat.mul Rat.add Rat.sub Rat.inv in
/-- C9 witness: the concrete invincible player overlapped by the concrete
"bug" obstacle. -/
theorem invincible_obstacle_branch_noop_witness :
    (GameEngine.obstacleQuery invincibleHitState ≠ none ∧
     invincibleHitState.player.invincible = true) ∧
    (GameEngine.obstaclePass testOracle invincibleHitState
        = invincibleHitState ∧
     (GameEngine.checkCollisions testOracle invincibleHitState).2.damaged
        = false ∧
     (GameEngine.checkCollisions testOracle invincibleHitState).1.obstacles
        = invincibleHitState.obstacles ∧
     (GameEngine.checkCollisions testOracle invincibleHitState).1.stats.lives
        = invincibleHitState.stats.lives) :=
  ⟨⟨by decide, rfl⟩,
   invincible_obstacle_branch_noop testOracle invincibleHitState (by decide)
     rfl⟩

-- ==================== HELPER LEMMAS: INVINCIBILITY ====================

theorem Player.update_keeps_invincible (p : Player) :
    (Player.update p).invincible = p.invincible := by
  unfold Player.update
  dsimp only
  repeat' split
  all_goals rfl

theorem GameEngine.pauseGame_player (s : EngineState) :
    (GameEngine.pauseGame s).player = s.player := by
  unfold GameEngine.pauseGame
  split <;> rfl

theorem GameEngine.collectiblePass_player (o : Oracle) (t : EngineState) :
    (GameEngine.collectiblePass o t).player = t.player := by
  unfold GameEngine.collectiblePass GameEngine.handleCollectible
  dsimp only
  repeat' split
  all_goals rfl

theorem GameEngine.powerupPass_player (o : Oracle) (t : EngineState) :
    (GameEngine.powerupPass o t).player = t.player := by
  unfold GameEngine.powerupPass GameEngine.handlePowerup
  dsimp only
  repeat' split
  all_goals rfl

theorem GameEngine.obstaclePass_player_inv (o : Oracle) (t : EngineState)
    (h : t.player.invincible = true) :
    (GameEngine.obstaclePass o t).player = t.player := by
  unfold GameEngine.obstaclePass
  split
  · rw [if_pos h]
  · rfl

theorem GameEngine.checkCollisions_player_inv (o : Oracle) (t : EngineState)
    (h : t.player.invincible = true) :
    (GameEngine.checkCollisions o t).1.player.invincible = true := by
  rw [GameEngine.checkCollisions_fst, GameEngine.powerupPass_player,
    GameEngine.collectiblePass_player, GameEngine.obstaclePass_player_inv o t h]
  exact h

theorem GameEngine.checkCollisions_dmgScheduled (o : Oracle)
    (t : EngineState) (h : t.player.invincible = true) :
    (GameEngine.checkCollisions o t).2.dmgTimeoutScheduled = false := by
  unfold GameEngine.checkCollisions
  dsimp only
  rw [h]
  simp

theorem GameEngine.midSteps_invincible (s : EngineState)
    (h : s.player.invincible = true) :
    (GameEngine.midSteps s).player.invincible = true := by
  rw [GameEngine.midSteps_player]
  split
  · rfl
  · rw [Player.update_keeps_invincible]
    exact h

theorem GameEngine.update_invincible (o : Oracle) (s : EngineState)
    (hinv : s.player.invincible = true) :
    (GameEngine.update o s).1.player.invincible = true ∧
    (GameEngine.update o s).2.dmgTimeoutScheduled = false := by
  by_cases hgd : s.state ≠ GState.playing ∨ s.isPaused = true
  · rw [GameEngine.update_noop o s hgd]
    exact ⟨hinv, rfl⟩
  · push_neg at hgd
    have h2 : s.isPaused = false := by
      cases hpz : s.isPaused
      · rfl
      · exact absurd hpz hgd.2
    have hupd := GameEngine.update_playing_eq o s hgd.1 h2
    have hmid : (GameEngine.preSteps o s).player.invincible = true := by
      rw [GameEngine.preSteps_player]
      exact GameEngine.midSteps_invincible s hinv
    constructor
    · rw [hupd]
      dsimp only
      rw [GameEngine.scoreStepAt_player]
      exact GameEngine.checkCollisions_player_inv o _ hmid
    · rw [hupd]
      dsimp only
      exact GameEngine.checkCollisions_dmgScheduled o _ hmid

theorem runTrace_invincible (o : Oracle) :
    ∀ (tr : List (TEvent × ℕ)) (s : TState),
      traceValid o s tr = true →
      s.eng.player.invincible = true → s.dmgTimers = [] →
      (runTrace o s tr).eng.player.invincible = true := by
  intro tr
  induction tr with
  | nil =>
    intro s _ hinv _
    exact hinv
  | cons et rest ih =>
    obtain ⟨e, t⟩ := et
    intro s hval hinv hdm
    unfold traceValid at hval
    simp only [Bool.and_eq_true] at hval
    have hstep : (stepEvent o s e t).eng.player.invincible = true ∧
        (stepEvent o s e t).dmgTimers = [] := by
      cases e with
      | tick =>
        constructor
        · exact (GameEngine.update_invincible o s.eng hinv).1
        · show s.dmgTimers ++
              (if (GameEngine.update o s.eng).2.dmgTimeoutScheduled
               then [t + 1500] else []) = []
          rw [(GameEngine.update_invincible o s.eng hinv).2, hdm]
          rfl
      | dmgFire =>
        exfalso
        have hv1 := hval.1
        unfold eventValid at hv1
        dsimp only at hv1
        simp only [Bool.and_eq_true] at hv1
        rw [hdm] at hv1
        exact Bool.false_ne_true hv1.2
      | puFire => exact ⟨hinv, hdm⟩
      | pause =>
        refine ⟨?_, hdm⟩
        show (GameEngine.pauseGame s.eng).player.invincible = true
        rw [GameEngine.pauseGame_player]
        exact hinv
      | resume => exact ⟨hinv, hdm⟩
    exact ih (stepEvent o s e t) hval.2 hstep.1 hstep.2

/-- C10 (corrected): what the code actually guarantees about the
invincibility power-up is (a) every tick that executes (playing, unpaused)
while `activePowerup = "invincibility"` ends with `player.invincible =
true`, and (b) once `player.invincible` is true and no damage-handler
timeout is pending, it stays true along every valid timed trace — ticks
never clear it, the power-up expiry clears only `activePowerup`, and the
only clearing code (the damage timeout) can never become pending because
damage is skipped while invincible.  The original "remains true on every
subsequent tick once activated" is false: activation only sets
`activePowerup`, `updateEffects` runs at the start of the *next executed*
tick, and pausing across the power-up's whole 5000 ms window lets the
expiry timeout fire first, so a session exists where no tick ever sets
`invincible` at all. -/
theorem invincibility_active_and_persistence (o : Oracle) :
    (∀ s : EngineState, s.state = GState.playing → s.isPaused = false →
       s.activePowerup = some "invincibility" →
       (GameEngine.update o s).1.player.invincible = true) ∧
    (∀ (s0 : TState) (tr : List (TEvent × ℕ)),
       traceValid o s0 tr = true →
       s0.eng.player.invincible = true → s0.dmgTimers = [] →
       (runTrace o s0 tr).eng.player.invincible = true) := by
  constructor
  · intro s h1 h2 hap
    rw [GameEngine.update_playing_eq o s h1 h2]
    dsimp only
    rw [GameEngine.scoreStepAt_player]
    apply GameEngine.checkCollisions_player_inv
    rw [GameEngine.preSteps_player, GameEngine.midSteps_player, if_pos hap]
  · intro s0 tr hval hinv hdm
    exact runTrace_invincible o tr s0 hval hinv hdm

unseal Rat.mul Rat.add Rat.sub Rat.inv in
/-- C10 witness: part (a) at the concrete state with the invincibility
power-up active, part (b) along the concrete tick/pause/resume trace from
an invincible player with no pending damage timeout. -/
theorem invincibility_active_and_persistence_witness :
    (invincActiveState.state = GState.playing ∧
     invincActiveState.isPaused = false ∧
     invincActiveState.activePowerup = some "invincibility" ∧
     (GameEngine.update testOracle invincActiveState).1.player.invincible
        = true) ∧
    (traceValid testOracle persistT0 persistTrace = true ∧
     persistT0.eng.player.invincible = true ∧
     persistT0.dmgTimers = [] ∧
     (runTrace testOracle persistT0 persistTrace).eng.player.invincible
        = true) :=
  have htv : traceValid testOracle persistT0 persistTrace = true := by decide
  ⟨⟨rfl, rfl, rfl,
    (invincibility_active_and_persistence testOracle).1 invincActiveState
      rfl rfl rfl⟩,
   ⟨htv, rfl, rfl,
    (invincibility_active_and_persistence testOracle).2 persistT0
      persistTrace htv rfl rfl⟩⟩

unseal Rat.mul Rat.add Rat.sub Rat.inv in
/-- C10 counterexample to the original claim: a valid timed session in
which the first tick collects and activates the invincibility power-up, the
game is then paused across the power-up's whole 5000 ms window so the
expiry timeout fires during the pause, and the tick after resuming — an
executed, playing, unpaused tick subsequent to activation — leaves
`player.invincible = false`. -/
theorem pause_across_expiry_defeats_invincibility :
    traceValid testOracle pickupT0 pauseAcrossExpiryTrace = true ∧
    (GameEngine.update testOracle pickupT0.eng).2.activated
      = some "invincibility" ∧
    (runTrace testOracle pickupT0
        (pauseAcrossExpiryTrace.take 5)).eng.state = GState.playing ∧
    (runTrace testOracle pickupT0
        (pauseAcrossExpiryTrace.take 5)).eng.isPaused = false ∧
    (runTrace testOracle pickupT0
        pauseAcrossExpiryTrace).eng.player.invincible = false := by
  refine ⟨by decide, by decide, by decide, by decide, by decide⟩
